import Mathlib

/-!
# go-events: storage gateway and request handlers

A shallow embedding of `internal/models`, `internal/storage/postgre` and
`internal/handlers`, together with small models of the library pieces they
call (`strconv.ParseInt`, `database/sql`, `net/http`, `encoding/json`).

* Entities are records; identities are integers.
* The relational store is a set of three tables, each with its identity
  sequence.  A statement either runs on the tables or meets a `Fault`
  (lost connection, violated constraint, failed scan, failed row count).
* A handler is a function from the gateway state and the request to the
  gateway state and the recorded response.
* Logging calls are side effects on the log only and are left out.
-/

namespace GoEvents

/-! ## internal/models -/

/-- User record of `models.User`. -/
structure User where
  ID : Int
  Name : String
  Email : String
deriving DecidableEq, Repr

/-- Event record of `models.Event`. -/
structure Event where
  ID : Int
  Title : String
  Description : String
deriving DecidableEq, Repr

/-- Booking record of `models.Booking`. -/
structure Booking where
  ID : Int
  EventID : Int
  UserID : Int
deriving DecidableEq, Repr

/-! ## Go errors -/

/-- An `error` value: the sentinel `sql.ErrNoRows`, or any other error,
known by its message. -/
inductive GoError where
  | ErrNoRows
  | other (text : String)
deriving DecidableEq, Repr

/-- Message of an error, `err.Error()`. -/
def GoError.Error : GoError → String
  | .ErrNoRows => "sql: no rows in result set"
  | .other text => text

deriving instance DecidableEq for Except

/-- Wrapping of an error, `fmt.Errorf("%s: %w", op, err)`. -/
def Errorf_w (op : String) (err : GoError) : GoError :=
  .other (op ++ ": " ++ err.Error)

/-- A new error with a fixed text after the operation name,
`fmt.Errorf("%s: <text>", op)`. -/
def Errorf_s (op : String) (text : String) : GoError :=
  .other (op ++ ": " ++ text)

/-! ## strconv.ParseInt (base 10, 64 bits) -/

/-- Unsigned decimal parse of `strconv.ParseUint(s, 10, 64)`: `none` on a
syntax error (empty input, a character that is not a decimal digit) and on a
value above `2^64 - 1`. -/
def ParseUint (s : List Char) : Option Nat :=
  if s.isEmpty then none
  else
    s.foldl
      (fun acc c =>
        match acc with
        | none => none
        | some n =>
          if c.isDigit then
            let n1 := n * 10 + (c.toNat - 48)
            if n1 < 2 ^ 64 then some n1 else none
          else none)
      (some 0)

/-- Signed decimal parse of `strconv.ParseInt(s, 10, 64)`: `none` when it
returns an error (syntax or range), the value otherwise. -/
def ParseInt (s : String) : Option Int :=
  match s.toList with
  | [] => none
  | c :: rest =>
    let neg := c == '-'
    let digits := if c == '+' || c == '-' then rest else c :: rest
    match ParseUint digits with
    | none => none
    | some un =>
      let cutoff : Nat := 2 ^ 63
      if !neg && decide (cutoff ≤ un) then none
      else if neg && decide (cutoff < un) then none
      else some (if neg then -(un : Int) else (un : Int))

/-- Value of a run of decimal digits read after the value `n`. -/
def decimalFrom (n : Nat) (s : List Char) : Nat :=
  s.foldl (fun n c => n * 10 + (c.toNat - 48)) n

/-! ## The relational store behind `database/sql` -/

/-- Column value of a result row. -/
inductive Value where
  | int (n : Int)
  | text (s : String)
deriving DecidableEq, Repr

/-- Result row: its column values in order. -/
abbrev Row := List Value

/-- Tables `users`, `events`, `bookings`, each with the last value handed out
by its identity sequence. -/
structure Tables where
  users : List User
  usersSeq : Int
  events : List Event
  eventsSeq : Int
  bookings : List Booking
  bookingsSeq : Int
deriving DecidableEq, Repr

/-- The fifteen statements the gateway sends, with their arguments in the
order of the placeholders. -/
inductive Stmt where
  | selectUsers
  | selectUser (id : Int)
  | insertUser (name email : String)
  | updateUser (name email : String) (id : Int)
  | deleteUser (id : Int)
  | selectEvents
  | selectEvent (id : Int)
  | insertEvent (title description : String)
  | updateEvent (title description : String) (id : Int)
  | deleteEvent (id : Int)
  | selectBookings
  | selectBooking (id : Int)
  | insertBooking (eventID userID : Int)
  | updateBooking (eventID userID : Int) (id : Int)
  | deleteBooking (id : Int)
deriving DecidableEq, Repr

/-- Columns `id, name, email` of a user row. -/
def User.row (u : User) : Row := [.int u.ID, .text u.Name, .text u.Email]

/-- Columns `id, title, description` of an event row. -/
def Event.row (e : Event) : Row := [.int e.ID, .text e.Title, .text e.Description]

/-- Columns `id, event_id, user_id` of a booking row. -/
def Booking.row (b : Booking) : Row := [.int b.ID, .int b.EventID, .int b.UserID]

/-- Outcome of a statement that runs: the tables after it, the rows it
returns and the number of rows it affected. -/
structure Outcome where
  tables : Tables
  rows : List Row
  affected : Int
deriving DecidableEq, Repr

/-- Relational meaning of each statement.  `INSERT ... RETURNING id` takes the
next value of the sequence; `UPDATE` overwrites every non-key column of the
matching rows; `DELETE` removes the matching rows.  Constraints of the schema
are not part of the tables: a violated constraint is a statement fault. -/
def Stmt.run (q : Stmt) (t : Tables) : Outcome :=
  match q with
  | .selectUsers => ⟨t, t.users.map User.row, 0⟩
  | .selectUser id => ⟨t, (t.users.filter (fun u => u.ID == id)).map User.row, 0⟩
  | .insertUser name email =>
    let id := t.usersSeq + 1
    ⟨{ t with users := t.users ++ [⟨id, name, email⟩], usersSeq := id }, [[.int id]], 1⟩
  | .updateUser name email id =>
    ⟨{ t with users := t.users.map (fun u => if u.ID == id then ⟨u.ID, name, email⟩ else u) },
      [], (t.users.filter (fun u => u.ID == id)).length⟩
  | .deleteUser id =>
    ⟨{ t with users := t.users.filter (fun u => !(u.ID == id)) },
      [], (t.users.filter (fun u => u.ID == id)).length⟩
  | .selectEvents => ⟨t, t.events.map Event.row, 0⟩
  | .selectEvent id => ⟨t, (t.events.filter (fun e => e.ID == id)).map Event.row, 0⟩
  | .insertEvent title description =>
    let id := t.eventsSeq + 1
    ⟨{ t with events := t.events ++ [⟨id, title, description⟩], eventsSeq := id }, [[.int id]], 1⟩
  | .updateEvent title description id =>
    ⟨{ t with events := t.events.map (fun e => if e.ID == id then ⟨e.ID, title, description⟩ else e) },
      [], (t.events.filter (fun e => e.ID == id)).length⟩
  | .deleteEvent id =>
    ⟨{ t with events := t.events.filter (fun e => !(e.ID == id)) },
      [], (t.events.filter (fun e => e.ID == id)).length⟩
  | .selectBookings => ⟨t, t.bookings.map Booking.row, 0⟩
  | .selectBooking id => ⟨t, (t.bookings.filter (fun b => b.ID == id)).map Booking.row, 0⟩
  | .insertBooking eventID userID =>
    let id := t.bookingsSeq + 1
    ⟨{ t with bookings := t.bookings ++ [⟨id, eventID, userID⟩], bookingsSeq := id }, [[.int id]], 1⟩
  | .updateBooking eventID userID id =>
    ⟨{ t with bookings := t.bookings.map (fun b => if b.ID == id then ⟨b.ID, eventID, userID⟩ else b) },
      [], (t.bookings.filter (fun b => b.ID == id)).length⟩
  | .deleteBooking id =>
    ⟨{ t with bookings := t.bookings.filter (fun b => !(b.ID == id)) },
      [], (t.bookings.filter (fun b => b.ID == id)).length⟩

/-- What goes wrong with a statement.
* `stmt err`: the statement itself fails (`Query`, `Exec` return `err`,
  `QueryRow(...).Scan` returns `err`); the tables are untouched.
* `rowsErr err`: the statement runs, the result set delivers no row and
  `rows.Err()` is `err`.
* `scan err`: the statement runs, `Scan` of a delivered row returns `err`.
* `rowsAffected err`: the statement runs, `result.RowsAffected()` returns `err`. -/
inductive Fault where
  | noFault
  | stmt (err : GoError)
  | rowsErr (err : GoError)
  | scan (err : GoError)
  | rowsAffected (err : GoError)
deriving DecidableEq, Repr

/-- The connection handle `*sql.DB` with the store it reaches: the tables, the
fault the next statements meet, and the statements sent so far. -/
structure DB where
  tables : Tables
  fault : Fault
  trace : List Stmt
deriving DecidableEq, Repr

/-- Result set `*sql.Rows`: the rows `Next` delivers, the error `Scan` returns
on a delivered row if any, and the value of `Err()` once `Next` is false. -/
structure Rows where
  pending : List Row
  scanErr : Option GoError
  err : Option GoError
deriving DecidableEq, Repr

/-- Single-row result `*sql.Row`: the deferred error of the query, and its
result set. -/
structure SqlRow where
  err : Option GoError
  rows : Rows
deriving DecidableEq, Repr

/-- Result `sql.Result` of `Exec`: what `RowsAffected()` returns. -/
structure Result where
  RowsAffected : Except GoError Int
deriving DecidableEq

/-- The handle after one more statement was sent through it. -/
def DB.sent (db : DB) (q : Stmt) (t : Tables) : DB :=
  { db with tables := t, trace := db.trace ++ [q] }

/-- Result set of a statement that ran under fault `f`. -/
def Fault.rows (f : Fault) (delivered : List Row) : Rows :=
  match f with
  | .rowsErr err => ⟨[], none, some err⟩
  | .scan err => ⟨delivered, some err, none⟩
  | _ => ⟨delivered, none, none⟩

/-- Model of `db.Query(query, args...)`. -/
def DB.Query (db : DB) (q : Stmt) : DB × Except GoError Rows :=
  match db.fault with
  | .stmt err => (db.sent q db.tables, .error err)
  | f =>
    let out := q.run db.tables
    (db.sent q out.tables, .ok (f.rows out.rows))

/-- Model of `db.QueryRow(query, args...)`. -/
def DB.QueryRow (db : DB) (q : Stmt) : DB × SqlRow :=
  match db.fault with
  | .stmt err => (db.sent q db.tables, ⟨some err, ⟨[], none, none⟩⟩)
  | f =>
    let out := q.run db.tables
    (db.sent q out.tables, ⟨none, f.rows out.rows⟩)

/-- Model of `db.Exec(query, args...)`. -/
def DB.Exec (db : DB) (q : Stmt) : DB × Except GoError Result :=
  match db.fault with
  | .stmt err => (db.sent q db.tables, .error err)
  | .rowsAffected err => (db.sent q (q.run db.tables).tables, .ok ⟨.error err⟩)
  | _ =>
    let out := q.run db.tables
    (db.sent q out.tables, .ok ⟨.ok out.affected⟩)

/-- Model of `rows.Scan(dest...)` on a delivered row; `dest` converts the
columns into the destination variables. -/
def Rows.Scan {α : Type} (rs : Rows) (r : Row) (dest : Row → Except GoError α) :
    Except GoError α :=
  match rs.scanErr with
  | some err => .error err
  | none => dest r

/-- Model of `row.Scan(dest...)`: the deferred error first, `sql.ErrNoRows`
when the result set is empty, else the scan of the first row. -/
def SqlRow.Scan {α : Type} (r : SqlRow) (dest : Row → Except GoError α) :
    Except GoError α :=
  match r.err with
  | some err => .error err
  | none =>
    match r.rows.pending with
    | [] =>
      match r.rows.err with
      | some err => .error err
      | none => .error .ErrNoRows
    | x :: _ => r.rows.Scan x dest

/-- Conversion error of `Scan` on a row of the wrong shape. -/
def scanMismatch : GoError := .other "sql: Scan error: unsupported column set"

/-- Destination `&user.ID, &user.Name, &user.Email`. -/
def scanUser : Row → Except GoError User
  | [.int id, .text name, .text email] => .ok ⟨id, name, email⟩
  | _ => .error scanMismatch

/-- Destination `&event.ID, &event.Title, &event.Description`. -/
def scanEvent : Row → Except GoError Event
  | [.int id, .text title, .text description] => .ok ⟨id, title, description⟩
  | _ => .error scanMismatch

/-- Destination `&booking.ID, &booking.EventID, &booking.UserID`. -/
def scanBooking : Row → Except GoError Booking
  | [.int id, .int eventID, .int userID] => .ok ⟨id, eventID, userID⟩
  | _ => .error scanMismatch

/-- Destination `&id`. -/
def scanID : Row → Except GoError Int
  | [.int id] => .ok id
  | _ => .error scanMismatch

/-- A Go slice: `none` is the nil slice, `some xs` a slice with elements `xs`. -/
abbrev Slice (α : Type) := Option (List α)

/-- Model of `append(s, x)`. -/
def Slice.append {α : Type} (s : Slice α) (x : α) : Slice α :=
  match s with
  | none => some [x]
  | some xs => some (xs ++ [x])

/-- The loop `for rows.Next() { scan one row; append it }` followed by the
check of `rows.Err()`; every error is wrapped with the operation name. -/
def scanAll {α : Type} (op : String) (rs : Rows) (dest : Row → Except GoError α) :
    List Row → Slice α → Except GoError (Slice α)
  | [], acc =>
    match rs.err with
    | some err => .error (Errorf_w op err)
    | none => .ok acc
  | r :: rest, acc =>
    match rs.Scan r dest with
    | .error err => .error (Errorf_w op err)
    | .ok x => scanAll op rs dest rest (acc.append x)

/-! ## internal/storage/postgre -/

/-- Gateway `postgre.Storage`: it holds the connection handle. -/
structure Storage where
  db : DB
deriving DecidableEq, Repr

/-- Gateway `Storage.GetAllUsers`. -/
def Storage.GetAllUsers (s : Storage) : Storage × Except GoError (Slice User) :=
  let op := "storage.postgre.GetAllUsers"
  match s.db.Query .selectUsers with
  | (db, .error err) => (⟨db⟩, .error (Errorf_w op err))
  | (db, .ok rows) => (⟨db⟩, scanAll op rows scanUser rows.pending none)

/-- Gateway `Storage.GetUserByID`. -/
def Storage.GetUserByID (s : Storage) (id : Int) : Storage × Except GoError User :=
  let op := "storage.postgre.GetUserByID"
  match s.db.QueryRow (.selectUser id) with
  | (db, row) =>
    match row.Scan scanUser with
    | .error err =>
      if err = GoError.ErrNoRows then (⟨db⟩, .error (Errorf_s op "user not found"))
      else (⟨db⟩, .error (Errorf_w op err))
    | .ok user => (⟨db⟩, .ok user)

/-- Gateway `Storage.AddUser`. -/
def Storage.AddUser (s : Storage) (name email : String) : Storage × Except GoError Int :=
  let op := "storage.postgres.AddUser"
  match s.db.QueryRow (.insertUser name email) with
  | (db, row) =>
    match row.Scan scanID with
    | .error err => (⟨db⟩, .error (Errorf_w op err))
    | .ok id => (⟨db⟩, .ok id)

/-- Gateway `Storage.UpdateUser`; `none` is the nil error. -/
def Storage.UpdateUser (s : Storage) (id : Int) (name email : String) : Storage × Option GoError :=
  let op := "storage.postgre.UpdateUser"
  match s.db.Exec (.updateUser name email id) with
  | (db, .error err) => (⟨db⟩, some (Errorf_w op err))
  | (db, .ok result) =>
    match result.RowsAffected with
    | .error err => (⟨db⟩, some (Errorf_w op err))
    | .ok rowsAffected =>
      if rowsAffected = 0 then (⟨db⟩, some (Errorf_s op "user not found"))
      else (⟨db⟩, none)

/-- Gateway `Storage.DeleteUser`; `none` is the nil error. -/
def Storage.DeleteUser (s : Storage) (id : Int) : Storage × Option GoError :=
  let op := "storage.postgre.DeleteUser"
  match s.db.Exec (.deleteUser id) with
  | (db, .error err) => (⟨db⟩, some (Errorf_w op err))
  | (db, .ok result) =>
    match result.RowsAffected with
    | .error err => (⟨db⟩, some (Errorf_w op err))
    | .ok rowsAffected =>
      if rowsAffected = 0 then (⟨db⟩, some (Errorf_s op "user not found"))
      else (⟨db⟩, none)

/-- Gateway `Storage.GetAllEvents`. -/
def Storage.GetAllEvents (s : Storage) : Storage × Except GoError (Slice Event) :=
  let op := "storage.postgre.GetAllEvents"
  match s.db.Query .selectEvents with
  | (db, .error err) => (⟨db⟩, .error (Errorf_w op err))
  | (db, .ok rows) => (⟨db⟩, scanAll op rows scanEvent rows.pending none)

/-- Gateway `Storage.GetEventByID`. -/
def Storage.GetEventByID (s : Storage) (id : Int) : Storage × Except GoError Event :=
  let op := "storage.postgre.GetEventByID"
  match s.db.QueryRow (.selectEvent id) with
  | (db, row) =>
    match row.Scan scanEvent with
    | .error err =>
      if err = GoError.ErrNoRows then (⟨db⟩, .error (Errorf_s op "event not found"))
      else (⟨db⟩, .error (Errorf_w op err))
    | .ok event => (⟨db⟩, .ok event)

/-- Gateway `Storage.AddEvent`. -/
def Storage.AddEvent (s : Storage) (title description : String) : Storage × Except GoError Int :=
  let op := "storage.postgres.AddEvent"
  match s.db.QueryRow (.insertEvent title description) with
  | (db, row) =>
    match row.Scan scanID with
    | .error err => (⟨db⟩, .error (Errorf_w op err))
    | .ok id => (⟨db⟩, .ok id)

/-- Gateway `Storage.UpdateEvent`; `none` is the nil error. -/
def Storage.UpdateEvent (s : Storage) (id : Int) (title description : String) : Storage × Option GoError :=
  let op := "storage.postgre.UpdateEvent"
  match s.db.Exec (.updateEvent title description id) with
  | (db, .error err) => (⟨db⟩, some (Errorf_w op err))
  | (db, .ok result) =>
    match result.RowsAffected with
    | .error err => (⟨db⟩, some (Errorf_w op err))
    | .ok rowsAffected =>
      if rowsAffected = 0 then (⟨db⟩, some (Errorf_s op "event not found"))
      else (⟨db⟩, none)

/-- Gateway `Storage.DeleteEvent`; `none` is the nil error. -/
def Storage.DeleteEvent (s : Storage) (id : Int) : Storage × Option GoError :=
  let op := "storage.postgre.DeleteEvent"
  match s.db.Exec (.deleteEvent id) with
  | (db, .error err) => (⟨db⟩, some (Errorf_w op err))
  | (db, .ok result) =>
    match result.RowsAffected with
    | .error err => (⟨db⟩, some (Errorf_w op err))
    | .ok rowsAffected =>
      if rowsAffected = 0 then (⟨db⟩, some (Errorf_s op "event not found"))
      else (⟨db⟩, none)

/-- Gateway `Storage.GetAllBookings`. -/
def Storage.GetAllBookings (s : Storage) : Storage × Except GoError (Slice Booking) :=
  let op := "storage.postgre.GetAllBookings"
  match s.db.Query .selectBookings with
  | (db, .error err) => (⟨db⟩, .error (Errorf_w op err))
  | (db, .ok rows) => (⟨db⟩, scanAll op rows scanBooking rows.pending none)

/-- Gateway `Storage.GetBookingByID`. -/
def Storage.GetBookingByID (s : Storage) (id : Int) : Storage × Except GoError Booking :=
  let op := "storage.postgre.GetBookingByID"
  match s.db.QueryRow (.selectBooking id) with
  | (db, row) =>
    match row.Scan scanBooking with
    | .error err =>
      if err = GoError.ErrNoRows then (⟨db⟩, .error (Errorf_s op "booking not found"))
      else (⟨db⟩, .error (Errorf_w op err))
    | .ok booking => (⟨db⟩, .ok booking)

/-- Gateway `Storage.AddBooking`. -/
def Storage.AddBooking (s : Storage) (eventID userID : Int) : Storage × Except GoError Int :=
  let op := "storage.postgres.AddBooking"
  match s.db.QueryRow (.insertBooking eventID userID) with
  | (db, row) =>
    match row.Scan scanID with
    | .error err => (⟨db⟩, .error (Errorf_w op err))
    | .ok id => (⟨db⟩, .ok id)

/-- Gateway `Storage.UpdateBooking`; `none` is the nil error. -/
def Storage.UpdateBooking (s : Storage) (id : Int) (eventID userID : Int) : Storage × Option GoError :=
  let op := "storage.postgre.UpdateBooking"
  match s.db.Exec (.updateBooking eventID userID id) with
  | (db, .error err) => (⟨db⟩, some (Errorf_w op err))
  | (db, .ok result) =>
    match result.RowsAffected with
    | .error err => (⟨db⟩, some (Errorf_w op err))
    | .ok rowsAffected =>
      if rowsAffected = 0 then (⟨db⟩, some (Errorf_s op "booking not found"))
      else (⟨db⟩, none)

/-- Gateway `Storage.DeleteBooking`; `none` is the nil error. -/
def Storage.DeleteBooking (s : Storage) (id : Int) : Storage × Option GoError :=
  let op := "storage.postgre.DeleteBooking"
  match s.db.Exec (.deleteBooking id) with
  | (db, .error err) => (⟨db⟩, some (Errorf_w op err))
  | (db, .ok result) =>
    match result.RowsAffected with
    | .error err => (⟨db⟩, some (Errorf_w op err))
    | .ok rowsAffected =>
      if rowsAffected = 0 then (⟨db⟩, some (Errorf_s op "booking not found"))
      else (⟨db⟩, none)

/-! ## encoding/json -/

/-- Value of an entity field in a JSON document. -/
inductive JsonField where
  | num (n : Int)
  | str (s : String)
deriving DecidableEq, Repr

/-- JSON object: its members in order. -/
abbrev JsonObject := List (String × JsonField)

/-- JSON document written by the encoder: `null`, one object, or an array of
objects. -/
inductive JsonDoc where
  | null
  | object (o : JsonObject)
  | array (os : List JsonObject)
deriving DecidableEq, Repr

/-- Encoding of `models.User` under its field tags. -/
def User.toJson (u : User) : JsonObject :=
  [("id", .num u.ID), ("name", .str u.Name), ("email", .str u.Email)]

/-- Encoding of `models.Event` under its field tags. -/
def Event.toJson (e : Event) : JsonObject :=
  [("id", .num e.ID), ("title", .str e.Title), ("description", .str e.Description)]

/-- Encoding of `models.Booking` under its field tags. -/
def Booking.toJson (b : Booking) : JsonObject :=
  [("id", .num b.ID), ("event_id", .num b.EventID), ("user_id", .num b.UserID)]

/-- Encoding of a slice: the nil slice is `null`, any other slice an array. -/
def Slice.toJson {α : Type} (f : α → JsonObject) (s : Slice α) : JsonDoc :=
  match s with
  | none => .null
  | some xs => .array (xs.map f)

/-- Text of a field value; `esc` is the encoder's escaping of string contents. -/
def JsonField.render (esc : String → String) : JsonField → String
  | .num n => toString n
  | .str s => "\"" ++ esc s ++ "\""

/-- Text of an object. -/
def JsonObject.render (esc : String → String) (o : JsonObject) : String :=
  "\x7b" ++ ",".intercalate (o.map (fun m => "\"" ++ m.1 ++ "\":" ++ m.2.render esc)) ++ "\x7d"

/-- Text of a document. -/
def JsonDoc.render (esc : String → String) : JsonDoc → String
  | .null => "null"
  | .object o => JsonObject.render esc o
  | .array os => "[" ++ ",".intercalate (os.map (JsonObject.render esc)) ++ "]"

/-! ## net/http -/

/-- Response header map, with canonical keys. -/
abbrev Header := List (String × String)

/-- Model of `Header.Set`. -/
def Header.Set (h : Header) (key value : String) : Header :=
  h.filter (fun kv => !(kv.1 == key)) ++ [(key, value)]

/-- Model of `Header.Get`; `none` when the key is absent. -/
def Header.Get (h : Header) (key : String) : Option String :=
  (h.find? (fun kv => kv.1 == key)).map Prod.snd

/-- One write to the response body: a line of text (the text and a newline),
or a JSON document as `Encoder.Encode` writes it (the document and a newline). -/
inductive Chunk where
  | line (text : String)
  | json (doc : JsonDoc)
deriving DecidableEq, Repr

/-- Bytes of a write. -/
def Chunk.render (esc : String → String) : Chunk → String
  | .line text => text ++ "\n"
  | .json doc => doc.render esc ++ "\n"

/-- Recorded `http.ResponseWriter`: the header map, the status line once it is
written together with the header map as it was at that moment, and the writes
to the body. -/
structure ResponseWriter where
  header : Header
  sent : Option (Nat × Header)
  body : List Chunk
deriving DecidableEq, Repr

/-- Response writer at the start of a request. -/
def ResponseWriter.fresh : ResponseWriter := ⟨[], none, []⟩

/-- Model of `w.Header().Set(key, value)`. -/
def ResponseWriter.SetHeader (w : ResponseWriter) (key value : String) : ResponseWriter :=
  { w with header := w.header.Set key value }

/-- Model of `w.WriteHeader(code)`: the first call fixes the status and the
headers; later calls do nothing. -/
def ResponseWriter.WriteHeader (w : ResponseWriter) (code : Nat) : ResponseWriter :=
  match w.sent with
  | some _ => w
  | none => { w with sent := some (code, w.header) }

/-- Model of `w.Write(data)`: writes the header with status 200 first when it
was not written yet. -/
def ResponseWriter.Write (w : ResponseWriter) (c : Chunk) : ResponseWriter :=
  let w1 := w.WriteHeader 200
  { w1 with body := w1.body ++ [c] }

/-- Model of `http.Error(w, text, code)`. -/
def Error (w : ResponseWriter) (text : String) (code : Nat) : ResponseWriter :=
  let w1 := w.SetHeader "Content-Type" "text/plain; charset=utf-8"
  let w2 := w1.SetHeader "X-Content-Type-Options" "nosniff"
  let w3 := w2.WriteHeader code
  w3.Write (.line text)

/-- Model of `json.NewEncoder(w).Encode(v)` for a value with document `doc`. -/
def Encode (w : ResponseWriter) (doc : JsonDoc) : ResponseWriter :=
  w.Write (.json doc)

/-- Status of the response once the handler has returned (200 when the handler
never wrote the header). -/
def ResponseWriter.status (w : ResponseWriter) : Nat :=
  match w.sent with
  | some (code, _) => code
  | none => 200

/-- Headers of the response as sent. -/
def ResponseWriter.sentHeader (w : ResponseWriter) : Header :=
  match w.sent with
  | some (_, h) => h
  | none => w.header

/-- Content type of the response as sent. -/
def ResponseWriter.contentType (w : ResponseWriter) : Option String :=
  w.sentHeader.Get "Content-Type"

/-- Bytes of the response body. -/
def ResponseWriter.bytes (esc : String → String) (w : ResponseWriter) : String :=
  String.join (w.body.map (Chunk.render esc))

abbrev StatusOK : Nat := 200
abbrev StatusCreated : Nat := 201
abbrev StatusNoContent : Nat := 204
abbrev StatusBadRequest : Nat := 400
abbrev StatusNotFound : Nat := 404
abbrev StatusInternalServerError : Nat := 500

/-- What a handler reads of a request: the path parameter `id`
(`chi.URLParam(r, "id")`, empty when the route has none) and the outcome of
`json.NewDecoder(r.Body).Decode(&v)` for a destination `v` of each entity
type: `none` when `Decode` returns an error, else the destination after the
decoding (fields absent from the body keep their zero value). -/
structure Request where
  id : String
  user : Option User
  event : Option Event
  booking : Option Booking
deriving DecidableEq, Repr

/-! ## internal/handlers -/

/-- Handler `UserHandler.GetAllUsers`. -/
def UserHandler.GetAllUsers (storage : Storage) (w : ResponseWriter) (_r : Request) :
    Storage × ResponseWriter :=
  let w := w.SetHeader "Content-Type" "application/json"
  match storage.GetAllUsers with
  | (storage, .error _) => (storage, Error w "Failed to fetch users" StatusInternalServerError)
  | (storage, .ok users) => (storage, Encode w (Slice.toJson User.toJson users))

/-- Handler `UserHandler.GetUserByID`. -/
def UserHandler.GetUserByID (storage : Storage) (w : ResponseWriter) (r : Request) :
    Storage × ResponseWriter :=
  let w := w.SetHeader "Content-Type" "application/json"
  let idStr := r.id
  match ParseInt idStr with
  | none => (storage, Error w "Invalid user ID" StatusBadRequest)
  | some id =>
    match storage.GetUserByID id with
    | (storage, .error _) => (storage, Error w "User not found" StatusNotFound)
    | (storage, .ok user) => (storage, Encode w (.object user.toJson))

/-- Handler `UserHandler.CreateUser`. -/
def UserHandler.CreateUser (storage : Storage) (w : ResponseWriter) (r : Request) :
    Storage × ResponseWriter :=
  let w := w.SetHeader "Content-Type" "application/json"
  match r.user with
  | none => (storage, Error w "Invalid request payload" StatusBadRequest)
  | some newUser =>
    match storage.AddUser newUser.Name newUser.Email with
    | (storage, .error _) => (storage, Error w "Failed to create user" StatusInternalServerError)
    | (storage, .ok id) =>
      let newUser := { newUser with ID := id }
      let w := w.WriteHeader StatusCreated
      (storage, Encode w (.object newUser.toJson))

/-- Handler `UserHandler.UpdateUser`. -/
def UserHandler.UpdateUser (storage : Storage) (w : ResponseWriter) (r : Request) :
    Storage × ResponseWriter :=
  let w := w.SetHeader "Content-Type" "application/json"
  let idStr := r.id
  match ParseInt idStr with
  | none => (storage, Error w "Invalid user ID" StatusBadRequest)
  | some id =>
    match r.user with
    | none => (storage, Error w "Invalid request payload" StatusBadRequest)
    | some updatedUser =>
      match storage.UpdateUser id updatedUser.Name updatedUser.Email with
      | (storage, some err) =>
        if err.Error = "storage.postgre.UpdateUser: user not found" then
          (storage, Error w "User not found" StatusNotFound)
        else (storage, Error w "Failed to update user" StatusInternalServerError)
      | (storage, none) =>
        let updatedUser := { updatedUser with ID := id }
        let w := w.WriteHeader StatusOK
        (storage, Encode w (.object updatedUser.toJson))

/-- Handler `UserHandler.DeleteUser`. -/
def UserHandler.DeleteUser (storage : Storage) (w : ResponseWriter) (r : Request) :
    Storage × ResponseWriter :=
  let w := w.SetHeader "Content-Type" "application/json"
  let idStr := r.id
  match ParseInt idStr with
  | none => (storage, Error w "Invalid user ID" StatusBadRequest)
  | some id =>
    match storage.DeleteUser id with
    | (storage, some err) =>
      if err.Error = "storage.postgre.DeleteUser: user not found" then
        (storage, Error w "User not found" StatusNotFound)
      else (storage, Error w "Failed to delete user" StatusInternalServerError)
    | (storage, none) => (storage, w.WriteHeader StatusNoContent)

/-- Handler `EventHandler.GetAllEvents`. -/
def EventHandler.GetAllEvents (storage : Storage) (w : ResponseWriter) (_r : Request) :
    Storage × ResponseWriter :=
  let w := w.SetHeader "Content-Type" "application/json"
  match storage.GetAllEvents with
  | (storage, .error _) => (storage, Error w "Failed to fetch events" StatusInternalServerError)
  | (storage, .ok events) => (storage, Encode w (Slice.toJson Event.toJson events))

/-- Handler `EventHandler.GetEventByID`. -/
def EventHandler.GetEventByID (storage : Storage) (w : ResponseWriter) (r : Request) :
    Storage × ResponseWriter :=
  let w := w.SetHeader "Content-Type" "application/json"
  let idStr := r.id
  match ParseInt idStr with
  | none => (storage, Error w "Invalid event ID" StatusBadRequest)
  | some id =>
    match storage.GetEventByID id with
    | (storage, .error _) => (storage, Error w "Event not found" StatusNotFound)
    | (storage, .ok event) => (storage, Encode w (.object event.toJson))

/-- Handler `EventHandler.CreateEvent`. -/
def EventHandler.CreateEvent (storage : Storage) (w : ResponseWriter) (r : Request) :
    Storage × ResponseWriter :=
  let w := w.SetHeader "Content-Type" "application/json"
  match r.event with
  | none => (storage, Error w "Invalid request payload" StatusBadRequest)
  | some newEvent =>
    match storage.AddEvent newEvent.Title newEvent.Description with
    | (storage, .error _) => (storage, Error w "Failed to create event" StatusInternalServerError)
    | (storage, .ok id) =>
      let newEvent := { newEvent with ID := id }
      let w := w.WriteHeader StatusCreated
      (storage, Encode w (.object newEvent.toJson))

/-- Handler `EventHandler.UpdateEvent`. -/
def EventHandler.UpdateEvent (storage : Storage) (w : ResponseWriter) (r : Request) :
    Storage × ResponseWriter :=
  let w := w.SetHeader "Content-Type" "application/json"
  let idStr := r.id
  match ParseInt idStr with
  | none => (storage, Error w "Invalid event ID" StatusBadRequest)
  | some id =>
    match r.event with
    | none => (storage, Error w "Invalid request payload" StatusBadRequest)
    | some updatedEvent =>
      match storage.UpdateEvent id updatedEvent.Title updatedEvent.Description with
      | (storage, some err) =>
        if err.Error = "storage.postgre.UpdateEvent: event not found" then
          (storage, Error w "Event not found" StatusNotFound)
        else (storage, Error w "Failed to update event" StatusInternalServerError)
      | (storage, none) =>
        let updatedEvent := { updatedEvent with ID := id }
        let w := w.WriteHeader StatusOK
        (storage, Encode w (.object updatedEvent.toJson))

/-- Handler `EventHandler.DeleteEvent`. -/
def EventHandler.DeleteEvent (storage : Storage) (w : ResponseWriter) (r : Request) :
    Storage × ResponseWriter :=
  let w := w.SetHeader "Content-Type" "application/json"
  let idStr := r.id
  match ParseInt idStr with
  | none => (storage, Error w "Invalid event ID" StatusBadRequest)
  | some id =>
    match storage.DeleteEvent id with
    | (storage, some err) =>
      if err.Error = "storage.postgre.DeleteEvent: event not found" then
        (storage, Error w "Event not found" StatusNotFound)
      else (storage, Error w "Failed to delete event" StatusInternalServerError)
    | (storage, none) => (storage, w.WriteHeader StatusNoContent)

/-- Handler `BookingHandler.GetAllBookings`. -/
def BookingHandler.GetAllBookings (storage : Storage) (w : ResponseWriter) (_r : Request) :
    Storage × ResponseWriter :=
  let w := w.SetHeader "Content-Type" "application/json"
  match storage.GetAllBookings with
  | (storage, .error _) => (storage, Error w "Failed to fetch bookings" StatusInternalServerError)
  | (storage, .ok bookings) => (storage, Encode w (Slice.toJson Booking.toJson bookings))

/-- Handler `BookingHandler.GetBookingById`. -/
def BookingHandler.GetBookingById (storage : Storage) (w : ResponseWriter) (r : Request) :
    Storage × ResponseWriter :=
  let w := w.SetHeader "Content-Type" "application/json"
  let idStr := r.id
  match ParseInt idStr with
  | none => (storage, Error w "Invalid booking ID" StatusBadRequest)
  | some id =>
    match storage.GetBookingByID id with
    | (storage, .error _) => (storage, Error w "Booking not found" StatusNotFound)
    | (storage, .ok booking) => (storage, Encode w (.object booking.toJson))

/-- Handler `BookingHandler.CreateBooking`. -/
def BookingHandler.CreateBooking (storage : Storage) (w : ResponseWriter) (r : Request) :
    Storage × ResponseWriter :=
  let w := w.SetHeader "Content-Type" "application/json"
  match r.booking with
  | none => (storage, Error w "Invalid request payload" StatusBadRequest)
  | some newBooking =>
    match storage.AddBooking newBooking.EventID newBooking.UserID with
    | (storage, .error _) => (storage, Error w "Failed to create booking" StatusInternalServerError)
    | (storage, .ok id) =>
      let newBooking := { newBooking with ID := id }
      let w := w.WriteHeader StatusCreated
      (storage, Encode w (.object newBooking.toJson))

/-- Handler `BookingHandler.UpdateBooking`. -/
def BookingHandler.UpdateBooking (storage : Storage) (w : ResponseWriter) (r : Request) :
    Storage × ResponseWriter :=
  let w := w.SetHeader "Content-Type" "application/json"
  let idStr := r.id
  match ParseInt idStr with
  | none => (storage, Error w "Invalid booking ID" StatusBadRequest)
  | some id =>
    match r.booking with
    | none => (storage, Error w "Invalid request payload" StatusBadRequest)
    | some updatedBooking =>
      match storage.UpdateBooking id updatedBooking.EventID updatedBooking.UserID with
      | (storage, some err) =>
        if err.Error = "storage.postgre.UpdateBooking: booking not found" then
          (storage, Error w "Booking not found" StatusNotFound)
        else (storage, Error w "Failed to update booking" StatusInternalServerError)
      | (storage, none) =>
        let updatedBooking := { updatedBooking with ID := id }
        let w := w.WriteHeader StatusOK
        (storage, Encode w (.object updatedBooking.toJson))

/-- Handler `BookingHandler.DeleteBooking`. -/
def BookingHandler.DeleteBooking (storage : Storage) (w : ResponseWriter) (r : Request) :
    Storage × ResponseWriter :=
  let w := w.SetHeader "Content-Type" "application/json"
  let idStr := r.id
  match ParseInt idStr with
  | none => (storage, Error w "Invalid booking ID" StatusBadRequest)
  | some id =>
    match storage.DeleteBooking id with
    | (storage, some err) =>
      if err.Error = "storage.postgre.DeleteBooking: booking not found" then
        (storage, Error w "Booking not found" StatusNotFound)
      else (storage, Error w "Failed to delete booking" StatusInternalServerError)
    | (storage, none) => (storage, w.WriteHeader StatusNoContent)

/-! ## internal/booker: the routes -/

/-- The fifteen routes bound by `booker.New`. -/
inductive Route where
  | getUsers | postUsers | getUser | putUser | deleteUser
  | getEvents | postEvents | getEvent | putEvent | deleteEvent
  | getBookings | postBookings | getBooking | putBooking | deleteBooking
deriving DecidableEq, Repr

/-- Handler bound to each route. -/
def Route.handler : Route → Storage → ResponseWriter → Request → Storage × ResponseWriter
  | .getUsers => UserHandler.GetAllUsers
  | .postUsers => UserHandler.CreateUser
  | .getUser => UserHandler.GetUserByID
  | .putUser => UserHandler.UpdateUser
  | .deleteUser => UserHandler.DeleteUser
  | .getEvents => EventHandler.GetAllEvents
  | .postEvents => EventHandler.CreateEvent
  | .getEvent => EventHandler.GetEventByID
  | .putEvent => EventHandler.UpdateEvent
  | .deleteEvent => EventHandler.DeleteEvent
  | .getBookings => BookingHandler.GetAllBookings
  | .postBookings => BookingHandler.CreateBooking
  | .getBooking => BookingHandler.GetBookingById
  | .putBooking => BookingHandler.UpdateBooking
  | .deleteBooking => BookingHandler.DeleteBooking

/-- One request served on a route: the handler runs on a fresh response writer. -/
def serve (rt : Route) (storage : Storage) (r : Request) : Storage × ResponseWriter :=
  rt.handler storage ResponseWriter.fresh r

/-- Store with empty tables and sequences that have handed out nothing. -/
def Tables.empty : Tables := ⟨[], 0, [], 0, [], 0⟩

/-- Gateway over given tables with a healthy connection and no statement sent. -/
def Storage.healthy (t : Tables) : Storage := ⟨⟨t, .noFault, []⟩⟩

/-! ## Sample data and auxiliary predicates -/

/-- Store with one user, one event and one booking, each with identity 1. -/
def sampleTables : Tables :=
  ⟨[⟨1, "Ann", "ann@x.com"⟩], 1, [⟨1, "Gala", "opening night"⟩], 1, [⟨1, 1, 1⟩], 1⟩

/-- Gateway over the sample store whose connection refuses every statement. -/
def brokenStorage : Storage :=
  ⟨⟨sampleTables, .stmt (.other "dial tcp 127.0.0.1:5432: connect: connection refused"), []⟩⟩

/-- Request with path parameter `id` and a body that decodes for every entity
(the body carries identity 0). -/
def sampleRequest (id : String) : Request :=
  ⟨id, some ⟨0, "Bob", "bob@x.com"⟩, some ⟨0, "Gala", ""⟩, some ⟨0, 1, 1⟩⟩

/-- Request with path parameter `id` and a body that fails to decode. -/
def badBodyRequest (id : String) : Request := ⟨id, none, none, none⟩

/-- The nine item routes `/{id}`. -/
def itemRoutes : List Route :=
  [.getUser, .putUser, .deleteUser, .getEvent, .putEvent, .deleteEvent,
   .getBooking, .putBooking, .deleteBooking]

/-- The response was sent as JSON with a success status, or as plain text with
an error status. -/
def ResponseWriter.typedByStatus (w : ResponseWriter) : Prop :=
  (w.status ∈ [200, 201, 204] ∧ w.contentType = some "application/json") ∨
  (w.status ∈ [400, 404, 500] ∧ w.contentType = some "text/plain; charset=utf-8")

/-- Every stored identity was handed out by the sequence of its table: it is
at most the last value of that sequence. -/
def Tables.seqBounds (t : Tables) : Prop :=
  (∀ x ∈ t.users, x.ID ≤ t.usersSeq) ∧
  (∀ x ∈ t.events, x.ID ≤ t.eventsSeq) ∧
  (∀ x ∈ t.bookings, x.ID ≤ t.bookingsSeq)

/-! ## Closing the gateway -/

/-- Connection pool behind an initialised handle `*sql.DB`, as far as closing
goes: the handle, whether the pool was closed, the number of `Close` calls it
received, and the error that closing the pool reports. -/
structure Pool where
  db : DB
  closed : Bool
  closeCalls : Nat
  closeErr : Option GoError
deriving DecidableEq, Repr

/-- Model of `(*sql.DB).Close`: the first call closes the pool and returns what
closing reports; a call on a closed pool returns nil. -/
def Pool.Close (p : Pool) : Pool × Option GoError :=
  if p.closed then (⟨p.db, true, p.closeCalls + 1, p.closeErr⟩, none)
  else (⟨p.db, true, p.closeCalls + 1, p.closeErr⟩, p.closeErr)

/-- Gateway value `postgre.Storage` as `Close` sees it: its field `db` may be
the nil handle (`none`). -/
structure StorageValue where
  db : Option Pool
deriving DecidableEq, Repr

/-- Pointer `*postgre.Storage`; `none` is the nil pointer. -/
abbrev StoragePtr := Option StorageValue

/-- Gateway `Storage.Close`: nil when the receiver or its handle is nil, else
the result of closing the handle. -/
def Storage.Close (s : StoragePtr) : StoragePtr × Option GoError :=
  match s with
  | none => (none, none)
  | some v =>
    match v.db with
    | none => (some v, none)
    | some p => (some ⟨some p.Close.1⟩, p.Close.2)

/-- The cleanup function built by `booker.New`: the gateway has a `Close`
method, so the capability check succeeds, `Close` is called and its error, if
any, is returned. -/
def cleanup (storage : StoragePtr) : StoragePtr × Option GoError :=
  match Storage.Close storage with
  | (storage, some err) => (storage, some err)
  | (storage, none) => (storage, none)

/-- Calling `Close` a number of times in a row: the gateway afterwards and the
results of the calls in order. -/
def closeTimes : Nat → StoragePtr → StoragePtr × List (Option GoError)
  | 0, s => (s, [])
  | n + 1, s => ((closeTimes n (Storage.Close s).1).1,
      (Storage.Close s).2 :: (closeTimes n (Storage.Close s).1).2)

/-- Request whose body decodes to a user with an empty name. -/
def namelessRequest (id : String) : Request :=
  ⟨id, some ⟨0, "", "ann@x.com"⟩, none, none⟩

/-! ## Theorems -/

/-! ### Auxiliary lemmas -/

theorem string_append_left_cancel (a b c : String) : a ++ b = a ++ c ↔ b = c := by
  constructor
  · intro h
    have h2 := congrArg String.data h
    simp only [String.data_append] at h2
    exact String.ext (List.append_cancel_left h2)
  · intro h; rw [h]

theorem wrapped_text_eq (op : String) (err : GoError) (what : String) :
    (Errorf_w op err).Error = op ++ ": " ++ what ↔ err.Error = what := by
  simp only [Errorf_w, GoError.Error]
  exact string_append_left_cancel _ _ _

theorem filter_id_nil {α : Type} (idOf : α → Int) (l : List α) (id : Int)
    (h : ∀ x ∈ l, idOf x ≠ id) : l.filter (fun x => idOf x == id) = [] := by
  rw [List.filter_eq_nil_iff]
  intro x hx
  simpa using h x hx

/-! ### strconv.ParseInt in closed form -/

theorem le_decimalFrom (s : List Char) (n : Nat) : n ≤ decimalFrom n s := by
  induction s generalizing n with
  | nil => exact le_refl _
  | cons c rest ih =>
    have := ih (n * 10 + (c.toNat - 48))
    simp only [decimalFrom, List.foldl_cons] at this ⊢
    omega

theorem parseStep_none (B : Nat) (s : List Char) :
    s.foldl
      (fun acc c =>
        match acc with
        | none => none
        | some n =>
          if c.isDigit then
            let n1 := n * 10 + (c.toNat - 48)
            if n1 < B then some n1 else none
          else none)
      (none : Option Nat) = none := by
  induction s with
  | nil => rfl
  | cons c rest ih => simpa only [List.foldl_cons] using ih

theorem parseStep_some (B : Nat) (s : List Char) (n : Nat) (hn : n < B) :
    s.foldl
      (fun acc c =>
        match acc with
        | none => none
        | some n =>
          if c.isDigit then
            let n1 := n * 10 + (c.toNat - 48)
            if n1 < B then some n1 else none
          else none)
      (some n) =
    if (∀ c ∈ s, c.isDigit = true) ∧ decimalFrom n s < B then some (decimalFrom n s)
    else none := by
  induction s generalizing n with
  | nil => simp [decimalFrom, hn]
  | cons c rest ih =>
    simp only [List.foldl_cons, List.mem_cons, forall_eq_or_imp]
    by_cases hc : c.isDigit = true
    · simp only [hc, if_true, true_and]
      by_cases h1 : n * 10 + (c.toNat - 48) < B
      · simp only [h1, if_true]
        rw [ih _ h1]
        rfl
      · simp only [h1, if_false]
        rw [parseStep_none]
        have := le_decimalFrom rest (n * 10 + (c.toNat - 48))
        have h2 : ¬ decimalFrom n (c :: rest) < B := by
          simp only [decimalFrom, List.foldl_cons] at this ⊢
          omega
        simp [h2]
    · simp only [hc, Bool.false_eq_true, if_false, false_and]
      rw [parseStep_none]

/-- Closed form of `ParseUint`: a non-empty run of decimal digits whose value is
below `2^64`. -/
theorem ParseUint_eq (s : List Char) :
    ParseUint s =
      if s ≠ [] ∧ (∀ c ∈ s, c.isDigit = true) ∧ decimalFrom 0 s < 2 ^ 64 then
        some (decimalFrom 0 s)
      else none := by
  unfold ParseUint
  cases s with
  | nil => rfl
  | cons c rest =>
    have h := parseStep_some (2 ^ 64) (c :: rest) 0 (Nat.two_pow_pos 64)
    have e : (c :: rest ≠ [] ∧ (∀ d ∈ c :: rest, d.isDigit = true) ∧
        decimalFrom 0 (c :: rest) < 2 ^ 64) ↔
        ((∀ d ∈ c :: rest, d.isDigit = true) ∧ decimalFrom 0 (c :: rest) < 2 ^ 64) :=
      ⟨fun x => x.2, fun x => ⟨List.cons_ne_nil _ _, x⟩⟩
    rw [if_congr e rfl rfl, ← h]
    rfl

/-- Closed form of `ParseInt`: the empty string is rejected; otherwise a leading
`+` or `-` is taken off, the rest must be a non-empty run of decimal digits, and
its value must be at most `2^63 - 1`, or at most `2^63` after a `-`. -/
theorem ParseInt_eq (s : String) :
    ParseInt s =
      match s.toList with
      | [] => none
      | c :: rest =>
        if (if c = '+' ∨ c = '-' then rest else c :: rest) ≠ [] ∧
            (∀ d ∈ (if c = '+' ∨ c = '-' then rest else c :: rest), d.isDigit = true) ∧
            decimalFrom 0 (if c = '+' ∨ c = '-' then rest else c :: rest) <
              (if c = '-' then 2 ^ 63 + 1 else 2 ^ 63) then
          some (if c = '-' then
              -(decimalFrom 0 (if c = '+' ∨ c = '-' then rest else c :: rest) : Int)
            else (decimalFrom 0 (if c = '+' ∨ c = '-' then rest else c :: rest) : Int))
        else none := by
  unfold ParseInt
  cases hs : s.toList with
  | nil => rfl
  | cons c rest =>
    simp only [Bool.or_eq_true, beq_iff_eq]
    generalize (if c = '+' ∨ c = '-' then rest else c :: rest) = digits
    rw [ParseUint_eq]
    have hBC : (2 : Nat) ^ 63 + 1 ≤ 2 ^ 64 := by norm_num
    generalize (2 : Nat) ^ 63 = B at hBC ⊢
    generalize (2 : Nat) ^ 64 = C at hBC ⊢
    generalize decimalFrom 0 digits = v
    by_cases hd : digits ≠ [] ∧ (∀ c ∈ digits, c.isDigit = true)
    · have e1 : (digits ≠ [] ∧ (∀ c ∈ digits, c.isDigit = true) ∧ v < C) ↔ v < C :=
        ⟨fun x => x.2.2, fun x => ⟨hd.1, hd.2, x⟩⟩
      have e2 : (digits ≠ [] ∧ (∀ c ∈ digits, c.isDigit = true) ∧
          v < (if c = '-' then B + 1 else B)) ↔ v < (if c = '-' then B + 1 else B) :=
        ⟨fun x => x.2.2, fun x => ⟨hd.1, hd.2, x⟩⟩
      rw [if_congr e1 rfl rfl, if_congr e2 rfl rfl]
      clear e1 e2
      by_cases hneg : c = '-'
      · subst hneg
        simp only [eq_self_iff_true, if_true]
        by_cases hr : v < C
        · by_cases h63 : B < v
          · have h3 : ¬ v < B + 1 := by omega
            simp [hr, h63, h3]
          · have h3 : v < B + 1 := by omega
            simp [hr, h63, h3]
        · have h3 : ¬ v < B + 1 := by omega
          simp [hr, h3]
      · have hb : (c == '-') = false := by simpa using hneg
        simp only [hneg, if_false]
        by_cases hr : v < C
        · by_cases h63 : B ≤ v
          · have h3 : ¬ v < B := by omega
            simp [hr, h63, hb, h3]
          · have h3 : v < B := by omega
            simp [hr, h63, hb, h3]
        · have h3 : ¬ v < B := by omega
          simp [hr, h3]
    · have h1 : ¬ (digits ≠ [] ∧ (∀ c ∈ digits, c.isDigit = true) ∧ v < C) :=
        fun h => hd ⟨h.1, h.2.1⟩
      have h2 : ¬ (digits ≠ [] ∧ (∀ c ∈ digits, c.isDigit = true) ∧
          v < (if c = '-' then B + 1 else B)) :=
        fun h => hd ⟨h.1, h.2.1⟩
      rw [if_neg h1, if_neg h2]

/-! #### User: handlers in terms of the gateway, gateway in terms of the tables -/

theorem scanUser_row (x : User) : scanUser x.row = .ok x := rfl

theorem serve_getUsers (s : Storage) (r : Request) :
    serve .getUsers s r =
      (s.GetAllUsers.1,
        match s.GetAllUsers.2 with
        | .error _ => Error (ResponseWriter.fresh.SetHeader "Content-Type" "application/json") "Failed to fetch users" StatusInternalServerError
        | .ok users => Encode (ResponseWriter.fresh.SetHeader "Content-Type" "application/json") (Slice.toJson User.toJson users)) := by
  simp only [serve, Route.handler, UserHandler.GetAllUsers]
  rcases s.GetAllUsers with ⟨st, _ | v⟩ <;> rfl

theorem serve_getUser (s : Storage) (r : Request) (id : Int) (hid : ParseInt r.id = some id) :
    serve .getUser s r =
      ((s.GetUserByID id).1,
        match (s.GetUserByID id).2 with
        | .error _ => Error (ResponseWriter.fresh.SetHeader "Content-Type" "application/json") "User not found" StatusNotFound
        | .ok user => Encode (ResponseWriter.fresh.SetHeader "Content-Type" "application/json") (.object user.toJson)) := by
  simp only [serve, Route.handler, UserHandler.GetUserByID, hid]
  rcases s.GetUserByID id with ⟨st, _ | v⟩ <;> rfl

theorem serve_postUsers (s : Storage) (r : Request) (u : User) (hu : r.user = some u) :
    serve .postUsers s r =
      ((s.AddUser u.Name u.Email).1,
        match (s.AddUser u.Name u.Email).2 with
        | .error _ => Error (ResponseWriter.fresh.SetHeader "Content-Type" "application/json") "Failed to create user" StatusInternalServerError
        | .ok id =>
          Encode ((ResponseWriter.fresh.SetHeader "Content-Type" "application/json").WriteHeader StatusCreated) (.object (User.toJson ⟨id, u.Name, u.Email⟩))) := by
  simp only [serve, Route.handler, UserHandler.CreateUser, hu]
  rcases s.AddUser u.Name u.Email with ⟨st, _ | v⟩ <;> rfl

theorem serve_putUser (s : Storage) (r : Request) (id : Int) (u : User)
    (hid : ParseInt r.id = some id) (hu : r.user = some u) :
    serve .putUser s r =
      ((s.UpdateUser id u.Name u.Email).1,
        match (s.UpdateUser id u.Name u.Email).2 with
        | some err =>
          if err.Error = "storage.postgre.UpdateUser: user not found" then
            Error (ResponseWriter.fresh.SetHeader "Content-Type" "application/json") "User not found" StatusNotFound
          else Error (ResponseWriter.fresh.SetHeader "Content-Type" "application/json") "Failed to update user" StatusInternalServerError
        | none =>
          Encode ((ResponseWriter.fresh.SetHeader "Content-Type" "application/json").WriteHeader StatusOK) (.object (User.toJson ⟨id, u.Name, u.Email⟩))) := by
  simp only [serve, Route.handler, UserHandler.UpdateUser, hid, hu]
  rcases s.UpdateUser id u.Name u.Email with ⟨st, _ | err⟩
  · rfl
  · simp only
    split <;> rfl

theorem serve_deleteUser (s : Storage) (r : Request) (id : Int) (hid : ParseInt r.id = some id) :
    serve .deleteUser s r =
      ((s.DeleteUser id).1,
        match (s.DeleteUser id).2 with
        | some err =>
          if err.Error = "storage.postgre.DeleteUser: user not found" then
            Error (ResponseWriter.fresh.SetHeader "Content-Type" "application/json") "User not found" StatusNotFound
          else Error (ResponseWriter.fresh.SetHeader "Content-Type" "application/json") "Failed to delete user" StatusInternalServerError
        | none => (ResponseWriter.fresh.SetHeader "Content-Type" "application/json").WriteHeader StatusNoContent) := by
  simp only [serve, Route.handler, UserHandler.DeleteUser, hid]
  rcases s.DeleteUser id with ⟨st, _ | err⟩
  · rfl
  · simp only
    split <;> rfl

theorem GetUserByID_noFault (s : Storage) (id : Int) (hf : s.db.fault = .noFault) :
    s.GetUserByID id =
      (⟨s.db.sent (.selectUser id) s.db.tables⟩,
        match s.db.tables.users.filter (fun x => x.ID == id) with
        | [] => .error (.other "storage.postgre.GetUserByID: user not found")
        | x :: _ => .ok x) := by
  obtain ⟨⟨t, f, tr⟩⟩ := s
  simp only at hf
  subst hf
  simp only [Storage.GetUserByID, DB.QueryRow, Stmt.run, Fault.rows, SqlRow.Scan]
  cases h : List.filter (fun x => x.ID == id) t.users with
  | nil => rfl
  | cons x rest => simp [Rows.Scan, scanUser_row]

theorem AddUser_noFault (s : Storage) (name email : String) (hf : s.db.fault = .noFault) :
    s.AddUser name email =
      (⟨s.db.sent (.insertUser name email)
          { s.db.tables with
            users := s.db.tables.users ++ [⟨s.db.tables.usersSeq + 1, name, email⟩],
            usersSeq := s.db.tables.usersSeq + 1 }⟩,
        .ok (s.db.tables.usersSeq + 1)) := by
  obtain ⟨⟨t, f, tr⟩⟩ := s
  simp only at hf
  subst hf
  rfl

theorem UpdateUser_noFault (s : Storage) (id : Int) (name email : String)
    (hf : s.db.fault = .noFault) :
    s.UpdateUser id name email =
      (⟨s.db.sent (.updateUser name email id)
          ((Stmt.updateUser name email id).run s.db.tables).tables⟩,
        if s.db.tables.users.filter (fun x => x.ID == id) = [] then
          some (.other "storage.postgre.UpdateUser: user not found")
        else none) := by
  obtain ⟨⟨t, f, tr⟩⟩ := s
  simp only at hf
  subst hf
  simp only [Storage.UpdateUser, DB.Exec, Stmt.run, Errorf_s]
  split <;> rename_i h
  · have h0 : List.filter (fun x => x.ID == id) t.users = [] := by simpa using h
    rw [if_pos h0]; rfl
  · have h0 : ¬ List.filter (fun x => x.ID == id) t.users = [] := by simpa using h
    rw [if_neg h0]

theorem DeleteUser_noFault (s : Storage) (id : Int) (hf : s.db.fault = .noFault) :
    s.DeleteUser id =
      (⟨s.db.sent (.deleteUser id) ((Stmt.deleteUser id).run s.db.tables).tables⟩,
        if s.db.tables.users.filter (fun x => x.ID == id) = [] then
          some (.other "storage.postgre.DeleteUser: user not found")
        else none) := by
  obtain ⟨⟨t, f, tr⟩⟩ := s
  simp only at hf
  subst hf
  simp only [Storage.DeleteUser, DB.Exec, Stmt.run, Errorf_s]
  split <;> rename_i h
  · have h0 : List.filter (fun x => x.ID == id) t.users = [] := by simpa using h
    rw [if_pos h0]; rfl
  · have h0 : ¬ List.filter (fun x => x.ID == id) t.users = [] := by simpa using h
    rw [if_neg h0]

theorem UpdateUser_fault (s : Storage) (id : Int) (name email : String) (err : GoError)
    (hf : s.db.fault = .stmt err ∨ s.db.fault = .rowsAffected err) :
    (s.UpdateUser id name email).2 = some (Errorf_w "storage.postgre.UpdateUser" err) := by
  obtain ⟨⟨t, f, tr⟩⟩ := s
  simp only at hf
  rcases hf with hf | hf <;> subst hf <;> rfl

theorem DeleteUser_fault (s : Storage) (id : Int) (err : GoError)
    (hf : s.db.fault = .stmt err ∨ s.db.fault = .rowsAffected err) :
    (s.DeleteUser id).2 = some (Errorf_w "storage.postgre.DeleteUser" err) := by
  obtain ⟨⟨t, f, tr⟩⟩ := s
  simp only at hf
  rcases hf with hf | hf <;> subst hf <;> rfl

/-! #### Event: handlers in terms of the gateway, gateway in terms of the tables -/

theorem scanEvent_row (x : Event) : scanEvent x.row = .ok x := rfl

theorem serve_getEvents (s : Storage) (r : Request) :
    serve .getEvents s r =
      (s.GetAllEvents.1,
        match s.GetAllEvents.2 with
        | .error _ => Error (ResponseWriter.fresh.SetHeader "Content-Type" "application/json") "Failed to fetch events" StatusInternalServerError
        | .ok events => Encode (ResponseWriter.fresh.SetHeader "Content-Type" "application/json") (Slice.toJson Event.toJson events)) := by
  simp only [serve, Route.handler, EventHandler.GetAllEvents]
  rcases s.GetAllEvents with ⟨st, _ | v⟩ <;> rfl

theorem serve_getEvent (s : Storage) (r : Request) (id : Int) (hid : ParseInt r.id = some id) :
    serve .getEvent s r =
      ((s.GetEventByID id).1,
        match (s.GetEventByID id).2 with
        | .error _ => Error (ResponseWriter.fresh.SetHeader "Content-Type" "application/json") "Event not found" StatusNotFound
        | .ok event => Encode (ResponseWriter.fresh.SetHeader "Content-Type" "application/json") (.object event.toJson)) := by
  simp only [serve, Route.handler, EventHandler.GetEventByID, hid]
  rcases s.GetEventByID id with ⟨st, _ | v⟩ <;> rfl

theorem serve_postEvents (s : Storage) (r : Request) (u : Event) (hu : r.event = some u) :
    serve .postEvents s r =
      ((s.AddEvent u.Title u.Description).1,
        match (s.AddEvent u.Title u.Description).2 with
        | .error _ => Error (ResponseWriter.fresh.SetHeader "Content-Type" "application/json") "Failed to create event" StatusInternalServerError
        | .ok id =>
          Encode ((ResponseWriter.fresh.SetHeader "Content-Type" "application/json").WriteHeader StatusCreated) (.object (Event.toJson ⟨id, u.Title, u.Description⟩))) := by
  simp only [serve, Route.handler, EventHandler.CreateEvent, hu]
  rcases s.AddEvent u.Title u.Description with ⟨st, _ | v⟩ <;> rfl

theorem serve_putEvent (s : Storage) (r : Request) (id : Int) (u : Event)
    (hid : ParseInt r.id = some id) (hu : r.event = some u) :
    serve .putEvent s r =
      ((s.UpdateEvent id u.Title u.Description).1,
        match (s.UpdateEvent id u.Title u.Description).2 with
        | some err =>
          if err.Error = "storage.postgre.UpdateEvent: event not found" then
            Error (ResponseWriter.fresh.SetHeader "Content-Type" "application/json") "Event not found" StatusNotFound
          else Error (ResponseWriter.fresh.SetHeader "Content-Type" "application/json") "Failed to update event" StatusInternalServerError
        | none =>
          Encode ((ResponseWriter.fresh.SetHeader "Content-Type" "application/json").WriteHeader StatusOK) (.object (Event.toJson ⟨id, u.Title, u.Description⟩))) := by
  simp only [serve, Route.handler, EventHandler.UpdateEvent, hid, hu]
  rcases s.UpdateEvent id u.Title u.Description with ⟨st, _ | err⟩
  · rfl
  · simp only
    split <;> rfl

theorem serve_deleteEvent (s : Storage) (r : Request) (id : Int) (hid : ParseInt r.id = some id) :
    serve .deleteEvent s r =
      ((s.DeleteEvent id).1,
        match (s.DeleteEvent id).2 with
        | some err =>
          if err.Error = "storage.postgre.DeleteEvent: event not found" then
            Error (ResponseWriter.fresh.SetHeader "Content-Type" "application/json") "Event not found" StatusNotFound
          else Error (ResponseWriter.fresh.SetHeader "Content-Type" "application/json") "Failed to delete event" StatusInternalServerError
        | none => (ResponseWriter.fresh.SetHeader "Content-Type" "application/json").WriteHeader StatusNoContent) := by
  simp only [serve, Route.handler, EventHandler.DeleteEvent, hid]
  rcases s.DeleteEvent id with ⟨st, _ | err⟩
  · rfl
  · simp only
    split <;> rfl

theorem GetEventByID_noFault (s : Storage) (id : Int) (hf : s.db.fault = .noFault) :
    s.GetEventByID id =
      (⟨s.db.sent (.selectEvent id) s.db.tables⟩,
        match s.db.tables.events.filter (fun x => x.ID == id) with
        | [] => .error (.other "storage.postgre.GetEventByID: event not found")
        | x :: _ => .ok x) := by
  obtain ⟨⟨t, f, tr⟩⟩ := s
  simp only at hf
  subst hf
  simp only [Storage.GetEventByID, DB.QueryRow, Stmt.run, Fault.rows, SqlRow.Scan]
  cases h : List.filter (fun x => x.ID == id) t.events with
  | nil => rfl
  | cons x rest => simp [Rows.Scan, scanEvent_row]

theorem AddEvent_noFault (s : Storage) (title description : String) (hf : s.db.fault = .noFault) :
    s.AddEvent title description =
      (⟨s.db.sent (.insertEvent title description)
          { s.db.tables with
            events := s.db.tables.events ++ [⟨s.db.tables.eventsSeq + 1, title, description⟩],
            eventsSeq := s.db.tables.eventsSeq + 1 }⟩,
        .ok (s.db.tables.eventsSeq + 1)) := by
  obtain ⟨⟨t, f, tr⟩⟩ := s
  simp only at hf
  subst hf
  rfl

theorem UpdateEvent_noFault (s : Storage) (id : Int) (title description : String)
    (hf : s.db.fault = .noFault) :
    s.UpdateEvent id title description =
      (⟨s.db.sent (.updateEvent title description id)
          ((Stmt.updateEvent title description id).run s.db.tables).tables⟩,
        if s.db.tables.events.filter (fun x => x.ID == id) = [] then
          some (.other "storage.postgre.UpdateEvent: event not found")
        else none) := by
  obtain ⟨⟨t, f, tr⟩⟩ := s
  simp only at hf
  subst hf
  simp only [Storage.UpdateEvent, DB.Exec, Stmt.run, Errorf_s]
  split <;> rename_i h
  · have h0 : List.filter (fun x => x.ID == id) t.events = [] := by simpa using h
    rw [if_pos h0]; rfl
  · have h0 : ¬ List.filter (fun x => x.ID == id) t.events = [] := by simpa using h
    rw [if_neg h0]

theorem DeleteEvent_noFault (s : Storage) (id : Int) (hf : s.db.fault = .noFault) :
    s.DeleteEvent id =
      (⟨s.db.sent (.deleteEvent id) ((Stmt.deleteEvent id).run s.db.tables).tables⟩,
        if s.db.tables.events.filter (fun x => x.ID == id) = [] then
          some (.other "storage.postgre.DeleteEvent: event not found")
        else none) := by
  obtain ⟨⟨t, f, tr⟩⟩ := s
  simp only at hf
  subst hf
  simp only [Storage.DeleteEvent, DB.Exec, Stmt.run, Errorf_s]
  split <;> rename_i h
  · have h0 : List.filter (fun x => x.ID == id) t.events = [] := by simpa using h
    rw [if_pos h0]; rfl
  · have h0 : ¬ List.filter (fun x => x.ID == id) t.events = [] := by simpa using h
    rw [if_neg h0]

theorem UpdateEvent_fault (s : Storage) (id : Int) (title description : String) (err : GoError)
    (hf : s.db.fault = .stmt err ∨ s.db.fault = .rowsAffected err) :
    (s.UpdateEvent id title description).2 = some (Errorf_w "storage.postgre.UpdateEvent" err) := by
  obtain ⟨⟨t, f, tr⟩⟩ := s
  simp only at hf
  rcases hf with hf | hf <;> subst hf <;> rfl

theorem DeleteEvent_fault (s : Storage) (id : Int) (err : GoError)
    (hf : s.db.fault = .stmt err ∨ s.db.fault = .rowsAffected err) :
    (s.DeleteEvent id).2 = some (Errorf_w "storage.postgre.DeleteEvent" err) := by
  obtain ⟨⟨t, f, tr⟩⟩ := s
  simp only at hf
  rcases hf with hf | hf <;> subst hf <;> rfl

/-! #### Booking: handlers in terms of the gateway, gateway in terms of the tables -/

theorem scanBooking_row (x : Booking) : scanBooking x.row = .ok x := rfl

theorem serve_getBookings (s : Storage) (r : Request) :
    serve .getBookings s r =
      (s.GetAllBookings.1,
        match s.GetAllBookings.2 with
        | .error _ => Error (ResponseWriter.fresh.SetHeader "Content-Type" "application/json") "Failed to fetch bookings" StatusInternalServerError
        | .ok bookings => Encode (ResponseWriter.fresh.SetHeader "Content-Type" "application/json") (Slice.toJson Booking.toJson bookings)) := by
  simp only [serve, Route.handler, BookingHandler.GetAllBookings]
  rcases s.GetAllBookings with ⟨st, _ | v⟩ <;> rfl

theorem serve_getBooking (s : Storage) (r : Request) (id : Int) (hid : ParseInt r.id = some id) :
    serve .getBooking s r =
      ((s.GetBookingByID id).1,
        match (s.GetBookingByID id).2 with
        | .error _ => Error (ResponseWriter.fresh.SetHeader "Content-Type" "application/json") "Booking not found" StatusNotFound
        | .ok booking => Encode (ResponseWriter.fresh.SetHeader "Content-Type" "application/json") (.object booking.toJson)) := by
  simp only [serve, Route.handler, BookingHandler.GetBookingById, hid]
  rcases s.GetBookingByID id with ⟨st, _ | v⟩ <;> rfl

theorem serve_postBookings (s : Storage) (r : Request) (u : Booking) (hu : r.booking = some u) :
    serve .postBookings s r =
      ((s.AddBooking u.EventID u.UserID).1,
        match (s.AddBooking u.EventID u.UserID).2 with
        | .error _ => Error (ResponseWriter.fresh.SetHeader "Content-Type" "application/json") "Failed to create booking" StatusInternalServerError
        | .ok id =>
          Encode ((ResponseWriter.fresh.SetHeader "Content-Type" "application/json").WriteHeader StatusCreated) (.object (Booking.toJson ⟨id, u.EventID, u.UserID⟩))) := by
  simp only [serve, Route.handler, BookingHandler.CreateBooking, hu]
  rcases s.AddBooking u.EventID u.UserID with ⟨st, _ | v⟩ <;> rfl

theorem serve_putBooking (s : Storage) (r : Request) (id : Int) (u : Booking)
    (hid : ParseInt r.id = some id) (hu : r.booking = some u) :
    serve .putBooking s r =
      ((s.UpdateBooking id u.EventID u.UserID).1,
        match (s.UpdateBooking id u.EventID u.UserID).2 with
        | some err =>
          if err.Error = "storage.postgre.UpdateBooking: booking not found" then
            Error (ResponseWriter.fresh.SetHeader "Content-Type" "application/json") "Booking not found" StatusNotFound
          else Error (ResponseWriter.fresh.SetHeader "Content-Type" "application/json") "Failed to update booking" StatusInternalServerError
        | none =>
          Encode ((ResponseWriter.fresh.SetHeader "Content-Type" "application/json").WriteHeader StatusOK) (.object (Booking.toJson ⟨id, u.EventID, u.UserID⟩))) := by
  simp only [serve, Route.handler, BookingHandler.UpdateBooking, hid, hu]
  rcases s.UpdateBooking id u.EventID u.UserID with ⟨st, _ | err⟩
  · rfl
  · simp only
    split <;> rfl

theorem serve_deleteBooking (s : Storage) (r : Request) (id : Int) (hid : ParseInt r.id = some id) :
    serve .deleteBooking s r =
      ((s.DeleteBooking id).1,
        match (s.DeleteBooking id).2 with
        | some err =>
          if err.Error = "storage.postgre.DeleteBooking: booking not found" then
            Error (ResponseWriter.fresh.SetHeader "Content-Type" "application/json") "Booking not found" StatusNotFound
          else Error (ResponseWriter.fresh.SetHeader "Content-Type" "application/json") "Failed to delete booking" StatusInternalServerError
        | none => (ResponseWriter.fresh.SetHeader "Content-Type" "application/json").WriteHeader StatusNoContent) := by
  simp only [serve, Route.handler, BookingHandler.DeleteBooking, hid]
  rcases s.DeleteBooking id with ⟨st, _ | err⟩
  · rfl
  · simp only
    split <;> rfl

theorem GetBookingByID_noFault (s : Storage) (id : Int) (hf : s.db.fault = .noFault) :
    s.GetBookingByID id =
      (⟨s.db.sent (.selectBooking id) s.db.tables⟩,
        match s.db.tables.bookings.filter (fun x => x.ID == id) with
        | [] => .error (.other "storage.postgre.GetBookingByID: booking not found")
        | x :: _ => .ok x) := by
  obtain ⟨⟨t, f, tr⟩⟩ := s
  simp only at hf
  subst hf
  simp only [Storage.GetBookingByID, DB.QueryRow, Stmt.run, Fault.rows, SqlRow.Scan]
  cases h : List.filter (fun x => x.ID == id) t.bookings with
  | nil => rfl
  | cons x rest => simp [Rows.Scan, scanBooking_row]

theorem AddBooking_noFault (s : Storage) (eventID userID : Int) (hf : s.db.fault = .noFault) :
    s.AddBooking eventID userID =
      (⟨s.db.sent (.insertBooking eventID userID)
          { s.db.tables with
            bookings := s.db.tables.bookings ++ [⟨s.db.tables.bookingsSeq + 1, eventID, userID⟩],
            bookingsSeq := s.db.tables.bookingsSeq + 1 }⟩,
        .ok (s.db.tables.bookingsSeq + 1)) := by
  obtain ⟨⟨t, f, tr⟩⟩ := s
  simp only at hf
  subst hf
  rfl

theorem UpdateBooking_noFault (s : Storage) (id : Int) (eventID userID : Int)
    (hf : s.db.fault = .noFault) :
    s.UpdateBooking id eventID userID =
      (⟨s.db.sent (.updateBooking eventID userID id)
          ((Stmt.updateBooking eventID userID id).run s.db.tables).tables⟩,
        if s.db.tables.bookings.filter (fun x => x.ID == id) = [] then
          some (.other "storage.postgre.UpdateBooking: booking not found")
        else none) := by
  obtain ⟨⟨t, f, tr⟩⟩ := s
  simp only at hf
  subst hf
  simp only [Storage.UpdateBooking, DB.Exec, Stmt.run, Errorf_s]
  split <;> rename_i h
  · have h0 : List.filter (fun x => x.ID == id) t.bookings = [] := by simpa using h
    rw [if_pos h0]; rfl
  · have h0 : ¬ List.filter (fun x => x.ID == id) t.bookings = [] := by simpa using h
    rw [if_neg h0]

theorem DeleteBooking_noFault (s : Storage) (id : Int) (hf : s.db.fault = .noFault) :
    s.DeleteBooking id =
      (⟨s.db.sent (.deleteBooking id) ((Stmt.deleteBooking id).run s.db.tables).tables⟩,
        if s.db.tables.bookings.filter (fun x => x.ID == id) = [] then
          some (.other "storage.postgre.DeleteBooking: booking not found")
        else none) := by
  obtain ⟨⟨t, f, tr⟩⟩ := s
  simp only at hf
  subst hf
  simp only [Storage.DeleteBooking, DB.Exec, Stmt.run, Errorf_s]
  split <;> rename_i h
  · have h0 : List.filter (fun x => x.ID == id) t.bookings = [] := by simpa using h
    rw [if_pos h0]; rfl
  · have h0 : ¬ List.filter (fun x => x.ID == id) t.bookings = [] := by simpa using h
    rw [if_neg h0]

theorem UpdateBooking_fault (s : Storage) (id : Int) (eventID userID : Int) (err : GoError)
    (hf : s.db.fault = .stmt err ∨ s.db.fault = .rowsAffected err) :
    (s.UpdateBooking id eventID userID).2 = some (Errorf_w "storage.postgre.UpdateBooking" err) := by
  obtain ⟨⟨t, f, tr⟩⟩ := s
  simp only at hf
  rcases hf with hf | hf <;> subst hf <;> rfl

theorem DeleteBooking_fault (s : Storage) (id : Int) (err : GoError)
    (hf : s.db.fault = .stmt err ∨ s.db.fault = .rowsAffected err) :
    (s.DeleteBooking id).2 = some (Errorf_w "storage.postgre.DeleteBooking" err) := by
  obtain ⟨⟨t, f, tr⟩⟩ := s
  simp only at hf
  rcases hf with hf | hf <;> subst hf <;> rfl


/-! #### Every gateway operation sends exactly one statement -/

theorem GetAllUsers_trace (s : Storage) :
    s.GetAllUsers.1.db.trace = s.db.trace ++ [.selectUsers] := by
  obtain ⟨⟨t, f, tr⟩⟩ := s
  cases f <;> rfl

theorem GetUserByID_trace (s : Storage) (id : Int) :
    (s.GetUserByID id).1.db.trace = s.db.trace ++ [.selectUser id] := by
  obtain ⟨⟨t, f, tr⟩⟩ := s
  cases f <;> simp only [Storage.GetUserByID, DB.QueryRow] <;> split <;> (try split) <;> rfl

theorem AddUser_trace (s : Storage) (name email : String) :
    (s.AddUser name email).1.db.trace = s.db.trace ++ [.insertUser name email] := by
  obtain ⟨⟨t, f, tr⟩⟩ := s
  cases f <;> rfl

theorem UpdateUser_trace (s : Storage) (id : Int) (name email : String) :
    (s.UpdateUser id name email).1.db.trace = s.db.trace ++ [.updateUser name email id] := by
  obtain ⟨⟨t, f, tr⟩⟩ := s
  cases f <;> simp only [Storage.UpdateUser, DB.Exec] <;> (try split) <;> rfl

theorem DeleteUser_trace (s : Storage) (id : Int) :
    (s.DeleteUser id).1.db.trace = s.db.trace ++ [.deleteUser id] := by
  obtain ⟨⟨t, f, tr⟩⟩ := s
  cases f <;> simp only [Storage.DeleteUser, DB.Exec] <;> (try split) <;> rfl

theorem GetAllEvents_trace (s : Storage) :
    s.GetAllEvents.1.db.trace = s.db.trace ++ [.selectEvents] := by
  obtain ⟨⟨t, f, tr⟩⟩ := s
  cases f <;> rfl

theorem GetEventByID_trace (s : Storage) (id : Int) :
    (s.GetEventByID id).1.db.trace = s.db.trace ++ [.selectEvent id] := by
  obtain ⟨⟨t, f, tr⟩⟩ := s
  cases f <;> simp only [Storage.GetEventByID, DB.QueryRow] <;> split <;> (try split) <;> rfl

theorem AddEvent_trace (s : Storage) (title description : String) :
    (s.AddEvent title description).1.db.trace = s.db.trace ++ [.insertEvent title description] := by
  obtain ⟨⟨t, f, tr⟩⟩ := s
  cases f <;> rfl

theorem UpdateEvent_trace (s : Storage) (id : Int) (title description : String) :
    (s.UpdateEvent id title description).1.db.trace = s.db.trace ++ [.updateEvent title description id] := by
  obtain ⟨⟨t, f, tr⟩⟩ := s
  cases f <;> simp only [Storage.UpdateEvent, DB.Exec] <;> (try split) <;> rfl

theorem DeleteEvent_trace (s : Storage) (id : Int) :
    (s.DeleteEvent id).1.db.trace = s.db.trace ++ [.deleteEvent id] := by
  obtain ⟨⟨t, f, tr⟩⟩ := s
  cases f <;> simp only [Storage.DeleteEvent, DB.Exec] <;> (try split) <;> rfl

theorem GetAllBookings_trace (s : Storage) :
    s.GetAllBookings.1.db.trace = s.db.trace ++ [.selectBookings] := by
  obtain ⟨⟨t, f, tr⟩⟩ := s
  cases f <;> rfl

theorem GetBookingByID_trace (s : Storage) (id : Int) :
    (s.GetBookingByID id).1.db.trace = s.db.trace ++ [.selectBooking id] := by
  obtain ⟨⟨t, f, tr⟩⟩ := s
  cases f <;> simp only [Storage.GetBookingByID, DB.QueryRow] <;> split <;> (try split) <;> rfl

theorem AddBooking_trace (s : Storage) (eventID userID : Int) :
    (s.AddBooking eventID userID).1.db.trace = s.db.trace ++ [.insertBooking eventID userID] := by
  obtain ⟨⟨t, f, tr⟩⟩ := s
  cases f <;> rfl

theorem UpdateBooking_trace (s : Storage) (id : Int) (eventID userID : Int) :
    (s.UpdateBooking id eventID userID).1.db.trace = s.db.trace ++ [.updateBooking eventID userID id] := by
  obtain ⟨⟨t, f, tr⟩⟩ := s
  cases f <;> simp only [Storage.UpdateBooking, DB.Exec] <;> (try split) <;> rfl

theorem DeleteBooking_trace (s : Storage) (id : Int) :
    (s.DeleteBooking id).1.db.trace = s.db.trace ++ [.deleteBooking id] := by
  obtain ⟨⟨t, f, tr⟩⟩ := s
  cases f <;> simp only [Storage.DeleteBooking, DB.Exec] <;> (try split) <;> rfl

/-! #### Handlers on a healthy connection, by whether the row exists -/

theorem postUsers_noFault (s : Storage) (r : Request) (u : User)
    (hf : s.db.fault = .noFault) (hu : r.user = some u) :
    serve .postUsers s r =
      (⟨s.db.sent (.insertUser u.Name u.Email)
          ((Stmt.insertUser u.Name u.Email).run s.db.tables).tables⟩,
        Encode ((ResponseWriter.fresh.SetHeader "Content-Type" "application/json").WriteHeader StatusCreated)
          (.object (User.toJson ⟨s.db.tables.usersSeq + 1, u.Name, u.Email⟩))) := by
  rw [serve_postUsers s r u hu, AddUser_noFault s _ _ hf]
  rfl

theorem getUser_found (s : Storage) (r : Request) (id : Int) (x : User) (rest : List User)
    (hf : s.db.fault = .noFault) (hid : ParseInt r.id = some id)
    (h : s.db.tables.users.filter (fun x => x.ID == id) = x :: rest) :
    serve .getUser s r =
      (⟨s.db.sent (.selectUser id) s.db.tables⟩, Encode (ResponseWriter.fresh.SetHeader "Content-Type" "application/json") (.object x.toJson)) := by
  rw [serve_getUser s r id hid, GetUserByID_noFault s id hf, h]

theorem getUser_missing (s : Storage) (r : Request) (id : Int)
    (hf : s.db.fault = .noFault) (hid : ParseInt r.id = some id)
    (h : s.db.tables.users.filter (fun x => x.ID == id) = []) :
    serve .getUser s r =
      (⟨s.db.sent (.selectUser id) s.db.tables⟩,
        Error (ResponseWriter.fresh.SetHeader "Content-Type" "application/json") "User not found" StatusNotFound) := by
  rw [serve_getUser s r id hid, GetUserByID_noFault s id hf, h]

theorem deleteUser_found (s : Storage) (r : Request) (id : Int)
    (hf : s.db.fault = .noFault) (hid : ParseInt r.id = some id)
    (h : s.db.tables.users.filter (fun x => x.ID == id) ≠ []) :
    serve .deleteUser s r =
      (⟨s.db.sent (.deleteUser id) ((Stmt.deleteUser id).run s.db.tables).tables⟩,
        (ResponseWriter.fresh.SetHeader "Content-Type" "application/json").WriteHeader StatusNoContent) := by
  rw [serve_deleteUser s r id hid, DeleteUser_noFault s id hf, if_neg h]

theorem postEvents_noFault (s : Storage) (r : Request) (u : Event)
    (hf : s.db.fault = .noFault) (hu : r.event = some u) :
    serve .postEvents s r =
      (⟨s.db.sent (.insertEvent u.Title u.Description)
          ((Stmt.insertEvent u.Title u.Description).run s.db.tables).tables⟩,
        Encode ((ResponseWriter.fresh.SetHeader "Content-Type" "application/json").WriteHeader StatusCreated)
          (.object (Event.toJson ⟨s.db.tables.eventsSeq + 1, u.Title, u.Description⟩))) := by
  rw [serve_postEvents s r u hu, AddEvent_noFault s _ _ hf]
  rfl

theorem getEvent_found (s : Storage) (r : Request) (id : Int) (x : Event) (rest : List Event)
    (hf : s.db.fault = .noFault) (hid : ParseInt r.id = some id)
    (h : s.db.tables.events.filter (fun x => x.ID == id) = x :: rest) :
    serve .getEvent s r =
      (⟨s.db.sent (.selectEvent id) s.db.tables⟩, Encode (ResponseWriter.fresh.SetHeader "Content-Type" "application/json") (.object x.toJson)) := by
  rw [serve_getEvent s r id hid, GetEventByID_noFault s id hf, h]

theorem getEvent_missing (s : Storage) (r : Request) (id : Int)
    (hf : s.db.fault = .noFault) (hid : ParseInt r.id = some id)
    (h : s.db.tables.events.filter (fun x => x.ID == id) = []) :
    serve .getEvent s r =
      (⟨s.db.sent (.selectEvent id) s.db.tables⟩,
        Error (ResponseWriter.fresh.SetHeader "Content-Type" "application/json") "Event not found" StatusNotFound) := by
  rw [serve_getEvent s r id hid, GetEventByID_noFault s id hf, h]

theorem deleteEvent_found (s : Storage) (r : Request) (id : Int)
    (hf : s.db.fault = .noFault) (hid : ParseInt r.id = some id)
    (h : s.db.tables.events.filter (fun x => x.ID == id) ≠ []) :
    serve .deleteEvent s r =
      (⟨s.db.sent (.deleteEvent id) ((Stmt.deleteEvent id).run s.db.tables).tables⟩,
        (ResponseWriter.fresh.SetHeader "Content-Type" "application/json").WriteHeader StatusNoContent) := by
  rw [serve_deleteEvent s r id hid, DeleteEvent_noFault s id hf, if_neg h]

theorem postBookings_noFault (s : Storage) (r : Request) (u : Booking)
    (hf : s.db.fault = .noFault) (hu : r.booking = some u) :
    serve .postBookings s r =
      (⟨s.db.sent (.insertBooking u.EventID u.UserID)
          ((Stmt.insertBooking u.EventID u.UserID).run s.db.tables).tables⟩,
        Encode ((ResponseWriter.fresh.SetHeader "Content-Type" "application/json").WriteHeader StatusCreated)
          (.object (Booking.toJson ⟨s.db.tables.bookingsSeq + 1, u.EventID, u.UserID⟩))) := by
  rw [serve_postBookings s r u hu, AddBooking_noFault s _ _ hf]
  rfl

theorem getBooking_found (s : Storage) (r : Request) (id : Int) (x : Booking) (rest : List Booking)
    (hf : s.db.fault = .noFault) (hid : ParseInt r.id = some id)
    (h : s.db.tables.bookings.filter (fun x => x.ID == id) = x :: rest) :
    serve .getBooking s r =
      (⟨s.db.sent (.selectBooking id) s.db.tables⟩, Encode (ResponseWriter.fresh.SetHeader "Content-Type" "application/json") (.object x.toJson)) := by
  rw [serve_getBooking s r id hid, GetBookingByID_noFault s id hf, h]

theorem getBooking_missing (s : Storage) (r : Request) (id : Int)
    (hf : s.db.fault = .noFault) (hid : ParseInt r.id = some id)
    (h : s.db.tables.bookings.filter (fun x => x.ID == id) = []) :
    serve .getBooking s r =
      (⟨s.db.sent (.selectBooking id) s.db.tables⟩,
        Error (ResponseWriter.fresh.SetHeader "Content-Type" "application/json") "Booking not found" StatusNotFound) := by
  rw [serve_getBooking s r id hid, GetBookingByID_noFault s id hf, h]

theorem deleteBooking_found (s : Storage) (r : Request) (id : Int)
    (hf : s.db.fault = .noFault) (hid : ParseInt r.id = some id)
    (h : s.db.tables.bookings.filter (fun x => x.ID == id) ≠ []) :
    serve .deleteBooking s r =
      (⟨s.db.sent (.deleteBooking id) ((Stmt.deleteBooking id).run s.db.tables).tables⟩,
        (ResponseWriter.fresh.SetHeader "Content-Type" "application/json").WriteHeader StatusNoContent) := by
  rw [serve_deleteBooking s r id hid, DeleteBooking_noFault s id hf, if_neg h]

/-! ### Identity sequences -/

theorem seqBounds_empty : Tables.empty.seqBounds := by
  simp [Tables.seqBounds, Tables.empty]

theorem bound_append {α : Type} (idOf : α → Int) (l : List α) (k : Int) (y : α)
    (h : ∀ x ∈ l, idOf x ≤ k) (hy : idOf y = k + 1) : ∀ x ∈ l ++ [y], idOf x ≤ k + 1 := by
  intro x hx
  rcases List.mem_append.mp hx with hx | hx
  · have := h x hx; omega
  · rw [List.mem_singleton.mp hx, hy]

theorem bound_map {α : Type} (idOf : α → Int) (l : List α) (k : Int) (f : α → α)
    (h : ∀ x ∈ l, idOf x ≤ k) (hf : ∀ x, idOf (f x) = idOf x) : ∀ x ∈ l.map f, idOf x ≤ k := by
  intro x hx
  obtain ⟨y, hy, rfl⟩ := List.mem_map.mp hx
  rw [hf]; exact h y hy

theorem bound_filter {α : Type} (idOf : α → Int) (l : List α) (k : Int) (p : α → Bool)
    (h : ∀ x ∈ l, idOf x ≤ k) : ∀ x ∈ l.filter p, idOf x ≤ k :=
  fun x hx => h x (List.mem_filter.mp hx).1

theorem seqBounds_run (q : Stmt) (t : Tables) (h : t.seqBounds) : (q.run t).tables.seqBounds := by
  obtain ⟨hu, he, hb⟩ := h
  cases q
  case insertUser name email => exact ⟨bound_append User.ID _ _ _ hu rfl, he, hb⟩
  case insertEvent title description => exact ⟨hu, bound_append Event.ID _ _ _ he rfl, hb⟩
  case insertBooking eventID userID => exact ⟨hu, he, bound_append Booking.ID _ _ _ hb rfl⟩
  case updateUser name email id =>
    exact ⟨bound_map User.ID _ _ _ hu (fun x => by split <;> rfl), he, hb⟩
  case updateEvent title description id =>
    exact ⟨hu, bound_map Event.ID _ _ _ he (fun x => by split <;> rfl), hb⟩
  case updateBooking eventID userID id =>
    exact ⟨hu, he, bound_map Booking.ID _ _ _ hb (fun x => by split <;> rfl)⟩
  case deleteUser id => exact ⟨bound_filter User.ID _ _ _ hu, he, hb⟩
  case deleteEvent id => exact ⟨hu, bound_filter Event.ID _ _ _ he, hb⟩
  case deleteBooking id => exact ⟨hu, he, bound_filter Booking.ID _ _ _ hb⟩
  all_goals exact ⟨hu, he, hb⟩

theorem seq_le_run (q : Stmt) (t : Tables) :
    t.usersSeq ≤ (q.run t).tables.usersSeq ∧ t.eventsSeq ≤ (q.run t).tables.eventsSeq ∧
    t.bookingsSeq ≤ (q.run t).tables.bookingsSeq := by
  cases q <;> simp [Stmt.run]

theorem filter_not_then_eq {α : Type} (p : α → Bool) (l : List α) :
    (l.filter (fun x => !p x)).filter p = [] := by
  rw [List.filter_eq_nil_iff]
  intro x hx
  simpa using (List.mem_filter.mp hx).2

/-! ### Get-by-ID answers 404 on every gateway failure -/

/-- C1 (code defect): with a user, an event and a booking of identity 1 in the
store and a connection that refuses the query, `GetUserByID` returns a wrapped
storage failure (not the not-found error), and still each Get-by-ID handler
answers 404 with the not-found text, where the claim requires 500; the Update
and Delete handlers answer 500 on the same failure. -/
theorem C1_get_by_id_storage_failure_answers_404 :
    (brokenStorage.GetUserByID 1).2 = .error (.other
      "storage.postgre.GetUserByID: dial tcp 127.0.0.1:5432: connect: connection refused") ∧
    (serve .getUser brokenStorage (sampleRequest "1")).2.status = 404 ∧
    (serve .getUser brokenStorage (sampleRequest "1")).2.body = [.line "User not found"] ∧
    (serve .getEvent brokenStorage (sampleRequest "1")).2.status = 404 ∧
    (serve .getBooking brokenStorage (sampleRequest "1")).2.status = 404 ∧
    (serve .putUser brokenStorage (sampleRequest "1")).2.status = 500 ∧
    (serve .deleteUser brokenStorage (sampleRequest "1")).2.status = 500 := by
  decide

/-! ### List on an empty table -/

/-- C2 (counterexample): on the empty store with a healthy connection the user
List handler answers 200 and its body is the text `null` and a newline, not
`[]`. -/
theorem C2_empty_list_body_is_not_an_array :
    (Storage.healthy Tables.empty).GetAllUsers.2 = .ok none ∧
    (serve .getUsers (Storage.healthy Tables.empty) (badBodyRequest "")).2.status = 200 ∧
    (serve .getUsers (Storage.healthy Tables.empty) (badBodyRequest "")).2.bytes id = "null\n" ∧
    (serve .getUsers (Storage.healthy Tables.empty) (badBodyRequest "")).2.bytes id ≠ "[]\n" := by
  decide

/-- C2 (amended): when the query runs without fault and the table of an
entity holds no rows, the gateway's list succeeds with the nil slice, and the
List handler answers 200 with the single document `null`, whose bytes are
`null` and a newline under every string escaping. -/
theorem C2_empty_list_is_null (s : Storage) (r : Request) (hf : s.db.fault = .noFault) :
    (s.db.tables.users = [] →
      s.GetAllUsers.2 = .ok none ∧
      (serve .getUsers s r).2.status = 200 ∧
      (serve .getUsers s r).2.body = [.json .null] ∧
      ∀ esc, (serve .getUsers s r).2.bytes esc = "null\n") ∧
    (s.db.tables.events = [] →
      s.GetAllEvents.2 = .ok none ∧
      (serve .getEvents s r).2.status = 200 ∧
      (serve .getEvents s r).2.body = [.json .null] ∧
      ∀ esc, (serve .getEvents s r).2.bytes esc = "null\n") ∧
    (s.db.tables.bookings = [] →
      s.GetAllBookings.2 = .ok none ∧
      (serve .getBookings s r).2.status = 200 ∧
      (serve .getBookings s r).2.body = [.json .null] ∧
      ∀ esc, (serve .getBookings s r).2.bytes esc = "null\n") := by
  obtain ⟨⟨t, f, tr⟩⟩ := s
  simp only at hf
  subst hf
  refine ⟨?_, ?_, ?_⟩ <;> intro h <;> simp only at h <;>
    simp [serve, Route.handler, UserHandler.GetAllUsers, Storage.GetAllUsers,
      EventHandler.GetAllEvents, Storage.GetAllEvents,
      BookingHandler.GetAllBookings, Storage.GetAllBookings, DB.Query, Stmt.run, h,
      Fault.rows, scanAll, Encode, ResponseWriter.Write, ResponseWriter.WriteHeader,
      ResponseWriter.SetHeader, ResponseWriter.fresh, ResponseWriter.status, Slice.toJson,
      ResponseWriter.bytes, Chunk.render, JsonDoc.render, String.join]

/-- C2 (witness): the amended statement at the empty store. -/
theorem C2_empty_list_is_null_witness :
    (Storage.healthy Tables.empty).db.fault = .noFault ∧
    (Storage.healthy Tables.empty).db.tables.users = [] ∧
    (serve .getUsers (Storage.healthy Tables.empty) (badBodyRequest "")).2.body = [.json .null] :=
  ⟨rfl, rfl,
    ((C2_empty_list_is_null (Storage.healthy Tables.empty) (badBodyRequest "") rfl).1 rfl).2.2.1⟩

/-! ### Path identities -/

/-- C3 (counterexample): the path id `-1` parses to the integer -1, and on a
healthy store none of the nine item handlers answers 400 to it: each passes
-1 to the gateway and answers 404. -/
theorem C3_negative_id_is_accepted :
    ParseInt "-1" = some (-1) ∧
    (serve .getUser (Storage.healthy sampleTables) (sampleRequest "-1")).2.status = 404 ∧
    (serve .putUser (Storage.healthy sampleTables) (sampleRequest "-1")).2.status = 404 ∧
    (serve .deleteUser (Storage.healthy sampleTables) (sampleRequest "-1")).2.status = 404 ∧
    (serve .getEvent (Storage.healthy sampleTables) (sampleRequest "-1")).2.status = 404 ∧
    (serve .putEvent (Storage.healthy sampleTables) (sampleRequest "-1")).2.status = 404 ∧
    (serve .deleteEvent (Storage.healthy sampleTables) (sampleRequest "-1")).2.status = 404 ∧
    (serve .getBooking (Storage.healthy sampleTables) (sampleRequest "-1")).2.status = 404 ∧
    (serve .putBooking (Storage.healthy sampleTables) (sampleRequest "-1")).2.status = 404 ∧
    (serve .deleteBooking (Storage.healthy sampleTables) (sampleRequest "-1")).2.status = 404 := by
  decide

/-- C3 (amended): for every item handler and every path id that
`strconv.ParseInt(id, 10, 64)` rejects (anything but an optional sign and a
non-empty run of decimal digits whose value fits 64 signed bits), the handler
answers 400. -/
theorem C3_rejected_id_answers_400 (rt : Route) (s : Storage) (r : Request)
    (hrt : rt ∈ itemRoutes) (hid : ParseInt r.id = none) :
    (serve rt s r).2.status = 400 := by
  simp only [itemRoutes, List.mem_cons, List.mem_singleton, List.not_mem_nil, or_false] at hrt
  rcases hrt with h | h | h | h | h | h | h | h | h <;> subst h <;>
    simp only [serve, Route.handler, UserHandler.GetUserByID, UserHandler.UpdateUser,
      UserHandler.DeleteUser, EventHandler.GetEventByID, EventHandler.UpdateEvent,
      EventHandler.DeleteEvent, BookingHandler.GetBookingById, BookingHandler.UpdateBooking,
      BookingHandler.DeleteBooking, hid] <;> rfl

/-- C3 (witness): the amended statement at the path id `abc` on the user
Get-by-ID route. -/
theorem C3_rejected_id_answers_400_witness :
    Route.getUser ∈ itemRoutes ∧ ParseInt (sampleRequest "abc").id = none ∧
    (serve .getUser (Storage.healthy sampleTables) (sampleRequest "abc")).2.status = 400 :=
  ⟨by decide, by decide,
    C3_rejected_id_answers_400 .getUser (Storage.healthy sampleTables) (sampleRequest "abc")
      (by decide) (by decide)⟩

/-! ### Content type of the response -/

/-- C4 (counterexample): the user Get-by-ID handler answers the path id `abc`
with status 400 and content type `text/plain; charset=utf-8`, not
`application/json`; so do the 404 and 500 answers of the Delete handler. -/
theorem C4_error_response_is_plain_text :
    (serve .getUser (Storage.healthy sampleTables) (sampleRequest "abc")).2.status = 400 ∧
    (serve .getUser (Storage.healthy sampleTables) (sampleRequest "abc")).2.contentType =
      some "text/plain; charset=utf-8" ∧
    (serve .getUser (Storage.healthy sampleTables) (sampleRequest "abc")).2.contentType ≠
      some "application/json" ∧
    (serve .deleteUser (Storage.healthy sampleTables) (sampleRequest "7")).2.status = 404 ∧
    (serve .deleteUser (Storage.healthy sampleTables) (sampleRequest "7")).2.contentType =
      some "text/plain; charset=utf-8" ∧
    (serve .deleteUser brokenStorage (sampleRequest "1")).2.status = 500 ∧
    (serve .deleteUser brokenStorage (sampleRequest "1")).2.contentType =
      some "text/plain; charset=utf-8" := by
  decide

/-- C4 (amended): for every route, gateway state and request, the response is
sent either with a success status (200, 201, 204) and content type
`application/json`, or with an error status (400, 404, 500, written through
`http.Error`) and content type `text/plain; charset=utf-8`. -/
theorem C4_content_type_follows_status (rt : Route) (s : Storage) (r : Request) :
    ((serve rt s r).2.status ∈ [200, 201, 204] ∧
      (serve rt s r).2.contentType = some "application/json") ∨
    ((serve rt s r).2.status ∈ [400, 404, 500] ∧
      (serve rt s r).2.contentType = some "text/plain; charset=utf-8") := by
  show (serve rt s r).2.typedByStatus
  cases rt <;>
    simp only [serve, Route.handler, UserHandler.GetAllUsers, UserHandler.GetUserByID,
      UserHandler.CreateUser, UserHandler.UpdateUser, UserHandler.DeleteUser,
      EventHandler.GetAllEvents, EventHandler.GetEventByID,
      EventHandler.CreateEvent, EventHandler.UpdateEvent, EventHandler.DeleteEvent,
      BookingHandler.GetAllBookings, BookingHandler.GetBookingById,
      BookingHandler.CreateBooking, BookingHandler.UpdateBooking,
      BookingHandler.DeleteBooking] <;>
    (repeat' split) <;>
    simp [ResponseWriter.typedByStatus, Error, Encode, ResponseWriter.Write,
      ResponseWriter.WriteHeader, ResponseWriter.SetHeader, ResponseWriter.fresh,
      ResponseWriter.status, ResponseWriter.contentType, ResponseWriter.sentHeader,
      Header.Set, Header.Get]

/-! ### Update and Delete of a missing row -/

/-- C5: when the statement runs without fault, the path id parses to `id` and
no row of the entity has identity `id`, the gateway's update (for every field
set) and delete return exactly the not-found errors whose texts the handlers
compare against, and the Update handler (for every decodable body) and the
Delete handler answer 404. -/
theorem C5_missing_row_answers_404 (s : Storage) (r : Request) (id : Int)
    (hf : s.db.fault = .noFault) (hid : ParseInt r.id = some id) :
    ((∀ x ∈ s.db.tables.users, x.ID ≠ id) →
      (∀ name email, (s.UpdateUser id name email).2 =
        some (.other "storage.postgre.UpdateUser: user not found")) ∧
      (s.DeleteUser id).2 = some (.other "storage.postgre.DeleteUser: user not found") ∧
      (∀ u, r.user = some u → (serve .putUser s r).2.status = 404) ∧
      (serve .deleteUser s r).2.status = 404) ∧
    ((∀ x ∈ s.db.tables.events, x.ID ≠ id) →
      (∀ title description, (s.UpdateEvent id title description).2 =
        some (.other "storage.postgre.UpdateEvent: event not found")) ∧
      (s.DeleteEvent id).2 = some (.other "storage.postgre.DeleteEvent: event not found") ∧
      (∀ u, r.event = some u → (serve .putEvent s r).2.status = 404) ∧
      (serve .deleteEvent s r).2.status = 404) ∧
    ((∀ x ∈ s.db.tables.bookings, x.ID ≠ id) →
      (∀ eventID userID, (s.UpdateBooking id eventID userID).2 =
        some (.other "storage.postgre.UpdateBooking: booking not found")) ∧
      (s.DeleteBooking id).2 =
        some (.other "storage.postgre.DeleteBooking: booking not found") ∧
      (∀ u, r.booking = some u → (serve .putBooking s r).2.status = 404) ∧
      (serve .deleteBooking s r).2.status = 404) := by
  refine ⟨fun h => ?_, fun h => ?_, fun h => ?_⟩
  · have hn := filter_id_nil User.ID _ id h
    refine ⟨fun name email => by rw [UpdateUser_noFault _ _ _ _ hf, if_pos hn],
      by rw [DeleteUser_noFault _ _ hf, if_pos hn], fun u hu => ?_, ?_⟩
    · rw [serve_putUser s r id u hid hu, UpdateUser_noFault _ _ _ _ hf, if_pos hn]; rfl
    · rw [serve_deleteUser s r id hid, DeleteUser_noFault _ _ hf, if_pos hn]; rfl
  · have hn := filter_id_nil Event.ID _ id h
    refine ⟨fun a b => by rw [UpdateEvent_noFault _ _ _ _ hf, if_pos hn],
      by rw [DeleteEvent_noFault _ _ hf, if_pos hn], fun u hu => ?_, ?_⟩
    · rw [serve_putEvent s r id u hid hu, UpdateEvent_noFault _ _ _ _ hf, if_pos hn]; rfl
    · rw [serve_deleteEvent s r id hid, DeleteEvent_noFault _ _ hf, if_pos hn]; rfl
  · have hn := filter_id_nil Booking.ID _ id h
    refine ⟨fun a b => by rw [UpdateBooking_noFault _ _ _ _ hf, if_pos hn],
      by rw [DeleteBooking_noFault _ _ hf, if_pos hn], fun u hu => ?_, ?_⟩
    · rw [serve_putBooking s r id u hid hu, UpdateBooking_noFault _ _ _ _ hf, if_pos hn]; rfl
    · rw [serve_deleteBooking s r id hid, DeleteBooking_noFault _ _ hf, if_pos hn]; rfl

/-- C5 (witness): path id `5` on the sample store, where no event has identity 5
(the scenario `PUT /events/5`). -/
theorem C5_missing_row_answers_404_witness :
    (Storage.healthy sampleTables).db.fault = .noFault ∧
    ParseInt (sampleRequest "5").id = some 5 ∧
    (∀ x ∈ (Storage.healthy sampleTables).db.tables.events, x.ID ≠ 5) ∧
    (serve .putEvent (Storage.healthy sampleTables) (sampleRequest "5")).2.status = 404 :=
  ⟨rfl, by decide, by decide,
    ((C5_missing_row_answers_404 (Storage.healthy sampleTables) (sampleRequest "5") 5 rfl
      (by decide)).2.1 (by decide)).2.2.1 _ rfl⟩

/-! ### Update and Delete under a storage failure -/

/-- C6 (counterexample): when the execution of the statement fails with an
error whose text is `user not found`, the user Update and Delete handlers
answer 404, not 500, although a user of identity 1 is stored. -/
theorem C6_failure_text_can_answer_404 :
    (serve .putUser ⟨⟨sampleTables, .stmt (.other "user not found"), []⟩⟩
      (sampleRequest "1")).2.status = 404 ∧
    (serve .deleteUser ⟨⟨sampleTables, .stmt (.other "user not found"), []⟩⟩
      (sampleRequest "1")).2.status = 404 ∧
    (serve .deleteUser ⟨⟨sampleTables, .rowsAffected (.other "user not found"), []⟩⟩
      (sampleRequest "1")).2.status = 404 := by
  decide

/-- C6 (amended): when the path id parses and the statement's execution or the
row-count read fails with error `err`, the Update handler (for every decodable
body) and the Delete handler answer 500, except when the text of `err` is
exactly `<entity> not found`, in which case they answer 404. -/
theorem C6_failure_answers_500_unless_text_matches (s : Storage) (r : Request) (id : Int)
    (err : GoError) (hid : ParseInt r.id = some id)
    (hf : s.db.fault = .stmt err ∨ s.db.fault = .rowsAffected err) :
    ((∀ u, r.user = some u →
        (serve .putUser s r).2.status = if err.Error = "user not found" then 404 else 500) ∧
      (serve .deleteUser s r).2.status = if err.Error = "user not found" then 404 else 500) ∧
    ((∀ u, r.event = some u →
        (serve .putEvent s r).2.status = if err.Error = "event not found" then 404 else 500) ∧
      (serve .deleteEvent s r).2.status = if err.Error = "event not found" then 404 else 500) ∧
    ((∀ u, r.booking = some u →
        (serve .putBooking s r).2.status =
          if err.Error = "booking not found" then 404 else 500) ∧
      (serve .deleteBooking s r).2.status =
        if err.Error = "booking not found" then 404 else 500) := by
  have k1 := wrapped_text_eq "storage.postgre.UpdateUser" err "user not found"
  have k2 := wrapped_text_eq "storage.postgre.DeleteUser" err "user not found"
  have k3 := wrapped_text_eq "storage.postgre.UpdateEvent" err "event not found"
  have k4 := wrapped_text_eq "storage.postgre.DeleteEvent" err "event not found"
  have k5 := wrapped_text_eq "storage.postgre.UpdateBooking" err "booking not found"
  have k6 := wrapped_text_eq "storage.postgre.DeleteBooking" err "booking not found"
  have e1 : "storage.postgre.UpdateUser" ++ ": " ++ "user not found" =
      "storage.postgre.UpdateUser: user not found" := by decide
  have e2 : "storage.postgre.DeleteUser" ++ ": " ++ "user not found" =
      "storage.postgre.DeleteUser: user not found" := by decide
  have e3 : "storage.postgre.UpdateEvent" ++ ": " ++ "event not found" =
      "storage.postgre.UpdateEvent: event not found" := by decide
  have e4 : "storage.postgre.DeleteEvent" ++ ": " ++ "event not found" =
      "storage.postgre.DeleteEvent: event not found" := by decide
  have e5 : "storage.postgre.UpdateBooking" ++ ": " ++ "booking not found" =
      "storage.postgre.UpdateBooking: booking not found" := by decide
  have e6 : "storage.postgre.DeleteBooking" ++ ": " ++ "booking not found" =
      "storage.postgre.DeleteBooking: booking not found" := by decide
  rw [e1] at k1; rw [e2] at k2; rw [e3] at k3; rw [e4] at k4; rw [e5] at k5; rw [e6] at k6
  refine ⟨⟨fun u hu => ?_, ?_⟩, ⟨fun u hu => ?_, ?_⟩, ⟨fun u hu => ?_, ?_⟩⟩
  · rw [serve_putUser s r id u hid hu, UpdateUser_fault s id _ _ err hf]
    by_cases h : err.Error = "user not found"
    · simp only [if_pos h, if_pos (k1.mpr h)]; rfl
    · simp only [if_neg h, if_neg (fun c => h (k1.mp c))]; rfl
  · rw [serve_deleteUser s r id hid, DeleteUser_fault s id err hf]
    by_cases h : err.Error = "user not found"
    · simp only [if_pos h, if_pos (k2.mpr h)]; rfl
    · simp only [if_neg h, if_neg (fun c => h (k2.mp c))]; rfl
  · rw [serve_putEvent s r id u hid hu, UpdateEvent_fault s id _ _ err hf]
    by_cases h : err.Error = "event not found"
    · simp only [if_pos h, if_pos (k3.mpr h)]; rfl
    · simp only [if_neg h, if_neg (fun c => h (k3.mp c))]; rfl
  · rw [serve_deleteEvent s r id hid, DeleteEvent_fault s id err hf]
    by_cases h : err.Error = "event not found"
    · simp only [if_pos h, if_pos (k4.mpr h)]; rfl
    · simp only [if_neg h, if_neg (fun c => h (k4.mp c))]; rfl
  · rw [serve_putBooking s r id u hid hu, UpdateBooking_fault s id _ _ err hf]
    by_cases h : err.Error = "booking not found"
    · simp only [if_pos h, if_pos (k5.mpr h)]; rfl
    · simp only [if_neg h, if_neg (fun c => h (k5.mp c))]; rfl
  · rw [serve_deleteBooking s r id hid, DeleteBooking_fault s id err hf]
    by_cases h : err.Error = "booking not found"
    · simp only [if_pos h, if_pos (k6.mpr h)]; rfl
    · simp only [if_neg h, if_neg (fun c => h (k6.mp c))]; rfl

/-- C6 (witness): a refused connection on the user Update route. -/
theorem C6_failure_answers_500_unless_text_matches_witness :
    ParseInt (sampleRequest "1").id = some 1 ∧
    (serve .putUser brokenStorage (sampleRequest "1")).2.status = 500 :=
  ⟨by decide,
    ((C6_failure_answers_500_unless_text_matches brokenStorage (sampleRequest "1") 1
      (.other "dial tcp 127.0.0.1:5432: connect: connection refused") (by decide)
      (Or.inl rfl)).1.1 _ rfl).trans (by decide)⟩

/-! ### Malformed input never reaches the store -/

/-- C7: a path id that fails to parse makes each of the nine item handlers
answer 400, and a body that fails to decode makes the Create and Update
handlers of its entity answer 400; in both cases the gateway state is returned
as it was (no statement is sent, the tables are unchanged).  In Update an
unparsable id is rejected before the body is looked at: the outcome is the same
for every body, and it is the invalid-id message. -/
theorem C7_malformed_input_answers_400_without_gateway_call (s : Storage) (r : Request) :
    (ParseInt r.id = none → ∀ rt ∈ itemRoutes,
      (serve rt s r).1 = s ∧ (serve rt s r).2.status = 400) ∧
    (r.user = none → ∀ rt ∈ [Route.postUsers, Route.putUser],
      (serve rt s r).1 = s ∧ (serve rt s r).2.status = 400) ∧
    (r.event = none → ∀ rt ∈ [Route.postEvents, Route.putEvent],
      (serve rt s r).1 = s ∧ (serve rt s r).2.status = 400) ∧
    (r.booking = none → ∀ rt ∈ [Route.postBookings, Route.putBooking],
      (serve rt s r).1 = s ∧ (serve rt s r).2.status = 400) ∧
    (ParseInt r.id = none →
      (∀ q : Request, q.id = r.id → ∀ rt ∈ [Route.putUser, Route.putEvent, Route.putBooking],
        serve rt s q = serve rt s r) ∧
      (serve .putUser s r).2.body = [.line "Invalid user ID"] ∧
      (serve .putEvent s r).2.body = [.line "Invalid event ID"] ∧
      (serve .putBooking s r).2.body = [.line "Invalid booking ID"]) := by
  refine ⟨fun hid rt hrt => ?_, fun hb rt hrt => ?_, fun hb rt hrt => ?_, fun hb rt hrt => ?_,
    fun hid => ⟨fun q hq rt hrt => ?_, ?_, ?_, ?_⟩⟩
  · simp only [itemRoutes, List.mem_cons, List.mem_singleton, List.not_mem_nil, or_false] at hrt
    rcases hrt with h | h | h | h | h | h | h | h | h <;> subst h <;>
      simp only [serve, Route.handler, UserHandler.GetUserByID, UserHandler.UpdateUser,
        UserHandler.DeleteUser, EventHandler.GetEventByID, EventHandler.UpdateEvent,
        EventHandler.DeleteEvent, BookingHandler.GetBookingById, BookingHandler.UpdateBooking,
        BookingHandler.DeleteBooking, hid] <;> (constructor <;> first | rfl | trivial)
  · simp only [List.mem_cons, List.mem_singleton, List.not_mem_nil, or_false] at hrt
    rcases hrt with h | h <;> subst h <;>
      simp only [serve, Route.handler, UserHandler.CreateUser, UserHandler.UpdateUser, hb] <;>
      (try split) <;> (constructor <;> first | rfl | trivial)
  · simp only [List.mem_cons, List.mem_singleton, List.not_mem_nil, or_false] at hrt
    rcases hrt with h | h <;> subst h <;>
      simp only [serve, Route.handler, EventHandler.CreateEvent, EventHandler.UpdateEvent, hb] <;>
      (try split) <;> (constructor <;> first | rfl | trivial)
  · simp only [List.mem_cons, List.mem_singleton, List.not_mem_nil, or_false] at hrt
    rcases hrt with h | h <;> subst h <;>
      simp only [serve, Route.handler, BookingHandler.CreateBooking,
        BookingHandler.UpdateBooking, hb] <;>
      (try split) <;> (constructor <;> first | rfl | trivial)
  · have hq2 : ParseInt q.id = none := by rw [hq]; exact hid
    simp only [List.mem_cons, List.mem_singleton, List.not_mem_nil, or_false] at hrt
    rcases hrt with h | h | h <;> subst h <;>
      simp only [serve, Route.handler, UserHandler.UpdateUser, EventHandler.UpdateEvent,
        BookingHandler.UpdateBooking, hid, hq2]
  · simp only [serve, Route.handler, UserHandler.UpdateUser, hid]; rfl
  · simp only [serve, Route.handler, EventHandler.UpdateEvent, hid]; rfl
  · simp only [serve, Route.handler, BookingHandler.UpdateBooking, hid]; rfl

/-- C7 (witness): `PUT /users/abc` with a body that does not decode, on the
sample store: the answer is 400 and the gateway state is untouched. -/
theorem C7_malformed_input_answers_400_without_gateway_call_witness :
    ParseInt (badBodyRequest "abc").id = none ∧
    (serve .putUser (Storage.healthy sampleTables) (badBodyRequest "abc")).1 =
      Storage.healthy sampleTables ∧
    (serve .putUser (Storage.healthy sampleTables) (badBodyRequest "abc")).2.status = 400 :=
  ⟨by decide,
    (C7_malformed_input_answers_400_without_gateway_call (Storage.healthy sampleTables)
      (badBodyRequest "abc")).1 (by decide) .putUser (by decide)⟩

/-! ### Create -/

/-- C8: for every decodable body the Create handler runs the gateway's create
on the body's writable fields alone (one insert statement with exactly these
fields is sent); when create fails it answers 500, and when create returns
identity `n` it answers 201 with the entity of identity `n` and the body's other
fields.  The identity carried by the body has no influence on the outcome. -/
theorem C8_create_uses_writable_fields_and_assigned_id (s : Storage) (r : Request) :
    (∀ u, r.user = some u →
      (serve .postUsers s r).1 = (s.AddUser u.Name u.Email).1 ∧
      (serve .postUsers s r).1.db.trace = s.db.trace ++ [.insertUser u.Name u.Email] ∧
      (∀ err, (s.AddUser u.Name u.Email).2 = .error err →
        (serve .postUsers s r).2.status = 500) ∧
      (∀ n, (s.AddUser u.Name u.Email).2 = .ok n →
        (serve .postUsers s r).2.status = 201 ∧
        (serve .postUsers s r).2.body = [.json (.object (User.toJson ⟨n, u.Name, u.Email⟩))]) ∧
      (∀ k, serve .postUsers s { r with user := some { u with ID := k } } =
        serve .postUsers s r)) ∧
    (∀ u, r.event = some u →
      (serve .postEvents s r).1 = (s.AddEvent u.Title u.Description).1 ∧
      (serve .postEvents s r).1.db.trace = s.db.trace ++ [.insertEvent u.Title u.Description] ∧
      (∀ err, (s.AddEvent u.Title u.Description).2 = .error err →
        (serve .postEvents s r).2.status = 500) ∧
      (∀ n, (s.AddEvent u.Title u.Description).2 = .ok n →
        (serve .postEvents s r).2.status = 201 ∧
        (serve .postEvents s r).2.body =
          [.json (.object (Event.toJson ⟨n, u.Title, u.Description⟩))]) ∧
      (∀ k, serve .postEvents s { r with event := some { u with ID := k } } =
        serve .postEvents s r)) ∧
    (∀ u, r.booking = some u →
      (serve .postBookings s r).1 = (s.AddBooking u.EventID u.UserID).1 ∧
      (serve .postBookings s r).1.db.trace =
        s.db.trace ++ [.insertBooking u.EventID u.UserID] ∧
      (∀ err, (s.AddBooking u.EventID u.UserID).2 = .error err →
        (serve .postBookings s r).2.status = 500) ∧
      (∀ n, (s.AddBooking u.EventID u.UserID).2 = .ok n →
        (serve .postBookings s r).2.status = 201 ∧
        (serve .postBookings s r).2.body =
          [.json (.object (Booking.toJson ⟨n, u.EventID, u.UserID⟩))]) ∧
      (∀ k, serve .postBookings s { r with booking := some { u with ID := k } } =
        serve .postBookings s r)) := by
  refine ⟨fun u hu => ?_, fun u hu => ?_, fun u hu => ?_⟩
  · refine ⟨?_, ?_, fun err he => ?_, fun n hn => ?_, fun k => ?_⟩
    · rw [serve_postUsers s r u hu]
    · rw [serve_postUsers s r u hu]; exact AddUser_trace s _ _
    · rw [serve_postUsers s r u hu, he]; rfl
    · rw [serve_postUsers s r u hu, hn]; exact ⟨rfl, rfl⟩
    · rw [serve_postUsers s r u hu, serve_postUsers s _ { u with ID := k } rfl]
  · refine ⟨?_, ?_, fun err he => ?_, fun n hn => ?_, fun k => ?_⟩
    · rw [serve_postEvents s r u hu]
    · rw [serve_postEvents s r u hu]; exact AddEvent_trace s _ _
    · rw [serve_postEvents s r u hu, he]; rfl
    · rw [serve_postEvents s r u hu, hn]; exact ⟨rfl, rfl⟩
    · rw [serve_postEvents s r u hu, serve_postEvents s _ { u with ID := k } rfl]
  · refine ⟨?_, ?_, fun err he => ?_, fun n hn => ?_, fun k => ?_⟩
    · rw [serve_postBookings s r u hu]
    · rw [serve_postBookings s r u hu]; exact AddBooking_trace s _ _
    · rw [serve_postBookings s r u hu, he]; rfl
    · rw [serve_postBookings s r u hu, hn]; exact ⟨rfl, rfl⟩
    · rw [serve_postBookings s r u hu, serve_postBookings s _ { u with ID := k } rfl]

/-- C8 (witness): `POST /users` on the empty store with a body that carries
identity 0: create returns identity 1 and the answer is 201 with identity 1. -/
theorem C8_create_uses_writable_fields_and_assigned_id_witness :
    (sampleRequest "").user = some ⟨0, "Bob", "bob@x.com"⟩ ∧
    ((Storage.healthy Tables.empty).AddUser "Bob" "bob@x.com").2 = .ok 1 ∧
    (serve .postUsers (Storage.healthy Tables.empty) (sampleRequest "")).2.status = 201 ∧
    (serve .postUsers (Storage.healthy Tables.empty) (sampleRequest "")).2.body =
      [.json (.object (User.toJson ⟨1, "Bob", "bob@x.com"⟩))] :=
  ⟨rfl, by decide,
    ((C8_create_uses_writable_fields_and_assigned_id (Storage.healthy Tables.empty)
      (sampleRequest "")).1 ⟨0, "Bob", "bob@x.com"⟩ rfl).2.2.2.1 1 (by decide)⟩

/-! ### Update -/

/-- C9: for every path id that parses to `p` and every decodable body, the
Update handler runs the gateway's update with identity `p` and the body's full
field set (one update statement with exactly these arguments is sent), and when
update succeeds it answers 200 with the entity of identity `p`, whatever
identity the body carried, and the body's other fields. -/
theorem C9_update_uses_path_id_and_body_fields (s : Storage) (r : Request) (p : Int)
    (hid : ParseInt r.id = some p) :
    (∀ u, r.user = some u →
      (serve .putUser s r).1 = (s.UpdateUser p u.Name u.Email).1 ∧
      (serve .putUser s r).1.db.trace = s.db.trace ++ [.updateUser u.Name u.Email p] ∧
      ((s.UpdateUser p u.Name u.Email).2 = none →
        (serve .putUser s r).2.status = 200 ∧
        (serve .putUser s r).2.body = [.json (.object (User.toJson ⟨p, u.Name, u.Email⟩))])) ∧
    (∀ u, r.event = some u →
      (serve .putEvent s r).1 = (s.UpdateEvent p u.Title u.Description).1 ∧
      (serve .putEvent s r).1.db.trace = s.db.trace ++ [.updateEvent u.Title u.Description p] ∧
      ((s.UpdateEvent p u.Title u.Description).2 = none →
        (serve .putEvent s r).2.status = 200 ∧
        (serve .putEvent s r).2.body =
          [.json (.object (Event.toJson ⟨p, u.Title, u.Description⟩))])) ∧
    (∀ u, r.booking = some u →
      (serve .putBooking s r).1 = (s.UpdateBooking p u.EventID u.UserID).1 ∧
      (serve .putBooking s r).1.db.trace =
        s.db.trace ++ [.updateBooking u.EventID u.UserID p] ∧
      ((s.UpdateBooking p u.EventID u.UserID).2 = none →
        (serve .putBooking s r).2.status = 200 ∧
        (serve .putBooking s r).2.body =
          [.json (.object (Booking.toJson ⟨p, u.EventID, u.UserID⟩))])) := by
  refine ⟨fun u hu => ⟨?_, ?_, fun hn => ?_⟩, fun u hu => ⟨?_, ?_, fun hn => ?_⟩,
    fun u hu => ⟨?_, ?_, fun hn => ?_⟩⟩
  · rw [serve_putUser s r p u hid hu]
  · rw [serve_putUser s r p u hid hu]; exact UpdateUser_trace s _ _ _
  · rw [serve_putUser s r p u hid hu, hn]; exact ⟨rfl, rfl⟩
  · rw [serve_putEvent s r p u hid hu]
  · rw [serve_putEvent s r p u hid hu]; exact UpdateEvent_trace s _ _ _
  · rw [serve_putEvent s r p u hid hu, hn]; exact ⟨rfl, rfl⟩
  · rw [serve_putBooking s r p u hid hu]
  · rw [serve_putBooking s r p u hid hu]; exact UpdateBooking_trace s _ _ _
  · rw [serve_putBooking s r p u hid hu, hn]; exact ⟨rfl, rfl⟩

/-- C9 (witness): `PUT /users/1` on the sample store with a body that carries
identity 0: the answer is 200 with identity 1 and the body's name and e-mail. -/
theorem C9_update_uses_path_id_and_body_fields_witness :
    ParseInt (sampleRequest "1").id = some 1 ∧
    (sampleRequest "1").user = some ⟨0, "Bob", "bob@x.com"⟩ ∧
    ((Storage.healthy sampleTables).UpdateUser 1 "Bob" "bob@x.com").2 = none ∧
    (serve .putUser (Storage.healthy sampleTables) (sampleRequest "1")).2.status = 200 ∧
    (serve .putUser (Storage.healthy sampleTables) (sampleRequest "1")).2.body =
      [.json (.object (User.toJson ⟨1, "Bob", "bob@x.com"⟩))] :=
  ⟨by decide, rfl, by decide,
    ((C9_update_uses_path_id_and_body_fields (Storage.healthy sampleTables) (sampleRequest "1") 1
      (by decide)).1 ⟨0, "Bob", "bob@x.com"⟩ rfl).2.2 (by decide)⟩

/-! ### Lifecycle of a user -/

/-- C10: on a store whose identities come from the sequence, with a healthy
connection, for every decodable user payload: the Create handler answers 201
with identity `usersSeq + 1`, which is above every stored identity and above
the last value the sequence handed out; Get-by-ID on that identity then
answers 200 with the same body; Delete on it answers 204 with an empty body;
and a following Get-by-ID on it answers 404. -/
theorem C10_user_lifecycle (s : Storage) (r q : Request) (u : User)
    (hf : s.db.fault = .noFault) (hseq : s.db.tables.seqBounds)
    (hu : r.user = some u) (hq : ParseInt q.id = some (s.db.tables.usersSeq + 1)) :
    (serve .postUsers s r).2.status = 201 ∧
    (serve .postUsers s r).2.body =
      [.json (.object (User.toJson ⟨s.db.tables.usersSeq + 1, u.Name, u.Email⟩))] ∧
    (∀ x ∈ s.db.tables.users, x.ID < s.db.tables.usersSeq + 1) ∧
    (serve .postUsers s r).1.db.tables.usersSeq = s.db.tables.usersSeq + 1 ∧
    (serve .getUser (serve .postUsers s r).1 q).2.status = 200 ∧
    (serve .getUser (serve .postUsers s r).1 q).2.body = (serve .postUsers s r).2.body ∧
    (serve .deleteUser (serve .getUser (serve .postUsers s r).1 q).1 q).2.status = 204 ∧
    (serve .deleteUser (serve .getUser (serve .postUsers s r).1 q).1 q).2.body = [] ∧
    (serve .getUser (serve .deleteUser (serve .getUser (serve .postUsers s r).1 q).1 q).1
      q).2.status = 404 := by
  have hlt : ∀ x ∈ s.db.tables.users, x.ID < s.db.tables.usersSeq + 1 := fun x hx => by
    have := hseq.1 x hx
    omega
  have hnone : s.db.tables.users.filter (fun x => x.ID == s.db.tables.usersSeq + 1) = [] :=
    filter_id_nil User.ID _ _ (fun x hx => ne_of_lt (hlt x hx))
  have h1 := postUsers_noFault s r u hf hu
  obtain ⟨s1, hs1⟩ : ∃ s1 : Storage, s1 = ⟨s.db.sent (.insertUser u.Name u.Email)
      ((Stmt.insertUser u.Name u.Email).run s.db.tables).tables⟩ := ⟨_, rfl⟩
  rw [← hs1] at h1
  have f1 : s1.db.fault = .noFault := by rw [hs1]; exact hf
  have n1 : s1.db.tables.usersSeq = s.db.tables.usersSeq + 1 := by rw [hs1]; rfl
  have q1 : s1.db.tables.users.filter (fun x => x.ID == s.db.tables.usersSeq + 1) =
      [⟨s.db.tables.usersSeq + 1, u.Name, u.Email⟩] := by
    have e : s1.db.tables.users =
        s.db.tables.users ++ [⟨s.db.tables.usersSeq + 1, u.Name, u.Email⟩] := by
      rw [hs1]; rfl
    rw [e, List.filter_append, hnone]
    simp
  have h2 := getUser_found s1 q _ _ _ f1 hq q1
  obtain ⟨s2, hs2⟩ : ∃ s2 : Storage,
      s2 = ⟨s1.db.sent (.selectUser (s.db.tables.usersSeq + 1)) s1.db.tables⟩ := ⟨_, rfl⟩
  rw [← hs2] at h2
  have f2 : s2.db.fault = .noFault := by rw [hs2]; exact f1
  have q2 : s2.db.tables.users.filter (fun x => x.ID == s.db.tables.usersSeq + 1) ≠ [] := by
    rw [hs2]
    show s1.db.tables.users.filter (fun x => x.ID == s.db.tables.usersSeq + 1) ≠ []
    rw [q1]
    exact List.cons_ne_nil _ _
  have h3 := deleteUser_found s2 q _ f2 hq q2
  obtain ⟨s3, hs3⟩ : ∃ s3 : Storage,
      s3 = ⟨s2.db.sent (.deleteUser (s.db.tables.usersSeq + 1))
        ((Stmt.deleteUser (s.db.tables.usersSeq + 1)).run s2.db.tables).tables⟩ := ⟨_, rfl⟩
  rw [← hs3] at h3
  have f3 : s3.db.fault = .noFault := by rw [hs3]; exact f2
  have q3 : s3.db.tables.users.filter (fun x => x.ID == s.db.tables.usersSeq + 1) = [] := by
    rw [hs3]
    exact filter_not_then_eq (fun x : User => x.ID == s.db.tables.usersSeq + 1) _
  have h4 := getUser_missing s3 q _ f3 hq q3
  simp only [h1, h2, h3, h4]
  exact ⟨rfl, rfl, hlt, n1, rfl, rfl, rfl, rfl, rfl⟩

/-- C10 (witness): `POST /users` with name Ann and e-mail ann@x.com on the empty
store answers 201 with identity 1, whose bytes are the object with members id,
name, email; then `GET /users/1` answers 200 with the same body,
`DELETE /users/1` answers 204 and `GET /users/1` answers 404. -/
theorem C10_user_lifecycle_witness :
    (Storage.healthy Tables.empty).db.fault = .noFault ∧
    (Storage.healthy Tables.empty).db.tables.seqBounds ∧
    ParseInt (badBodyRequest "1").id = some ((Storage.healthy Tables.empty).db.tables.usersSeq + 1) ∧
    (serve .postUsers (Storage.healthy Tables.empty)
      ⟨"", some ⟨0, "Ann", "ann@x.com"⟩, none, none⟩).2.bytes id =
      "\x7b\"id\":1,\"name\":\"Ann\",\"email\":\"ann@x.com\"\x7d\n" ∧
    (serve .getUser (serve .deleteUser (serve .getUser (serve .postUsers
      (Storage.healthy Tables.empty) ⟨"", some ⟨0, "Ann", "ann@x.com"⟩, none, none⟩).1
      (badBodyRequest "1")).1 (badBodyRequest "1")).1 (badBodyRequest "1")).2.status = 404 :=
  ⟨rfl, seqBounds_empty, by decide, by decide,
    (C10_user_lifecycle (Storage.healthy Tables.empty)
      ⟨"", some ⟨0, "Ann", "ann@x.com"⟩, none, none⟩ (badBodyRequest "1") ⟨0, "Ann", "ann@x.com"⟩
      rfl seqBounds_empty rfl (by decide)).2.2.2.2.2.2.2.2⟩

/-! ### Rows that do not match -/

theorem map_no_match {α : Type} (idOf : α → Int) (l : List α) (id : Int) (f : α → α)
    (h : ∀ x ∈ l, idOf x ≠ id) : l.map (fun x => if idOf x == id then f x else x) = l := by
  have e : l.map (fun x => if idOf x == id then f x else x) = l.map (fun x => x) :=
    List.map_congr_left (fun x hx => by
      have hne : (idOf x == id) = false := by simpa using h x hx
      simp only [hne, Bool.false_eq_true, if_false])
  rw [e, List.map_id']

theorem filter_no_match {α : Type} (idOf : α → Int) (l : List α) (id : Int)
    (h : ∀ x ∈ l, idOf x ≠ id) : l.filter (fun x => !(idOf x == id)) = l := by
  rw [List.filter_eq_self]
  intro x hx
  simpa using h x hx

theorem run_update_no_match (t : Tables) (id : Int) :
    ((∀ x ∈ t.users, x.ID ≠ id) → ∀ name email,
      ((Stmt.updateUser name email id).run t).tables = t) ∧
    ((∀ x ∈ t.events, x.ID ≠ id) → ∀ title description,
      ((Stmt.updateEvent title description id).run t).tables = t) ∧
    ((∀ x ∈ t.bookings, x.ID ≠ id) → ∀ eventID userID,
      ((Stmt.updateBooking eventID userID id).run t).tables = t) := by
  refine ⟨fun h a b => ?_, fun h a b => ?_, fun h a b => ?_⟩
  · simp only [Stmt.run]
    rw [map_no_match User.ID t.users id (fun u => ⟨u.ID, a, b⟩) h]
  · simp only [Stmt.run]
    rw [map_no_match Event.ID t.events id (fun u => ⟨u.ID, a, b⟩) h]
  · simp only [Stmt.run]
    rw [map_no_match Booking.ID t.bookings id (fun u => ⟨u.ID, a, b⟩) h]

theorem run_delete_no_match (t : Tables) (id : Int) :
    ((∀ x ∈ t.users, x.ID ≠ id) → ((Stmt.deleteUser id).run t).tables = t) ∧
    ((∀ x ∈ t.events, x.ID ≠ id) → ((Stmt.deleteEvent id).run t).tables = t) ∧
    ((∀ x ∈ t.bookings, x.ID ≠ id) → ((Stmt.deleteBooking id).run t).tables = t) := by
  refine ⟨fun h => ?_, fun h => ?_, fun h => ?_⟩
  · simp only [Stmt.run]
    rw [filter_no_match User.ID t.users id h]
  · simp only [Stmt.run]
    rw [filter_no_match Event.ID t.events id h]
  · simp only [Stmt.run]
    rw [filter_no_match Booking.ID t.bookings id h]

/-! ### Update applied to its own result -/

theorem update_keeps_match {α : Type} (idOf : α → Int) (l : List α) (id : Int) (f : α → α)
    (hf : ∀ x, idOf (f x) = idOf x) (h : l.filter (fun x => idOf x == id) ≠ []) :
    (l.map (fun x => if idOf x == id then f x else x)).filter (fun x => idOf x == id) ≠ [] := by
  obtain ⟨x, hx⟩ := List.exists_mem_of_ne_nil _ h
  obtain ⟨hxl, hxid⟩ := List.mem_filter.mp hx
  intro hnil
  have hmem : f x ∈ (l.map (fun x => if idOf x == id then f x else x)).filter
      (fun x => idOf x == id) := by
    refine List.mem_filter.mpr ⟨List.mem_map.mpr ⟨x, hxl, ?_⟩, ?_⟩
    · simp only [hxid, if_true]
    · rw [hf]; exact hxid
  rw [hnil] at hmem
  exact List.not_mem_nil _ hmem

theorem update_idem {α : Type} (idOf : α → Int) (l : List α) (id : Int) (f : α → α)
    (hf : ∀ x, idOf (f x) = idOf x) (hff : ∀ x, f (f x) = f x) :
    (l.map (fun x => if idOf x == id then f x else x)).map
      (fun x => if idOf x == id then f x else x) =
    l.map (fun x => if idOf x == id then f x else x) := by
  rw [List.map_map]
  apply List.map_congr_left
  intro x _
  simp only [Function.comp_apply]
  by_cases hx : (idOf x == id) = true
  · simp only [hx, if_true, hf, hff]
  · simp only [hx, Bool.false_eq_true, if_false]

theorem UpdateUser_runs (s : Storage) (id : Int) (name email : String)
    (h1 : ∀ err, s.db.fault ≠ .stmt err) (h2 : ∀ err, s.db.fault ≠ .rowsAffected err) :
    s.UpdateUser id name email =
      (⟨s.db.sent (.updateUser name email id)
          ((Stmt.updateUser name email id).run s.db.tables).tables⟩,
        if s.db.tables.users.filter (fun x => x.ID == id) = [] then
          some (.other "storage.postgre.UpdateUser: user not found")
        else none) := by
  obtain ⟨⟨t, f, tr⟩⟩ := s
  cases f
  case stmt err => exact absurd rfl (h1 err)
  case rowsAffected err => exact absurd rfl (h2 err)
  all_goals
    simp only [Storage.UpdateUser, DB.Exec, Stmt.run, Errorf_s]
    split <;> rename_i h
    · have h0 : List.filter (fun x => x.ID == id) t.users = [] := by simpa using h
      rw [if_pos h0]; rfl
    · have h0 : ¬ List.filter (fun x => x.ID == id) t.users = [] := by simpa using h
      rw [if_neg h0]

theorem UpdateUser_ok_runs (s : Storage) (id : Int) (name email : String)
    (h : (s.UpdateUser id name email).2 = none) :
    (∀ err, s.db.fault ≠ .stmt err) ∧ (∀ err, s.db.fault ≠ .rowsAffected err) := by
  obtain ⟨⟨t, f, tr⟩⟩ := s
  cases f
  case stmt err => exact absurd h (by simp [Storage.UpdateUser, DB.Exec])
  case rowsAffected err => exact absurd h (by simp [Storage.UpdateUser, DB.Exec])
  all_goals exact ⟨fun err => by simp, fun err => by simp⟩

theorem UpdateUser_twice (s : Storage) (id : Int) (name email : String)
    (h : (s.UpdateUser id name email).2 = none) :
    ((s.UpdateUser id name email).1.UpdateUser id name email).2 = none ∧
    ((s.UpdateUser id name email).1.UpdateUser id name email).1.db.tables =
      (s.UpdateUser id name email).1.db.tables := by
  obtain ⟨h1, h2⟩ := UpdateUser_ok_runs s id name email h
  have e1 := UpdateUser_runs s id name email h1 h2
  rw [e1] at h ⊢
  have hm : s.db.tables.users.filter (fun x => x.ID == id) ≠ [] := by
    intro hnil
    rw [if_pos hnil] at h
    exact absurd h (by simp)
  have hm2 := update_keeps_match User.ID s.db.tables.users id (fun x => ⟨x.ID, name, email⟩)
    (fun _ => rfl) hm
  have e2 := UpdateUser_runs ⟨s.db.sent (.updateUser name email id)
    ((Stmt.updateUser name email id).run s.db.tables).tables⟩ id name email h1 h2
  rw [e2]
  refine ⟨if_neg hm2, ?_⟩
  simp only [DB.sent, Stmt.run]
  rw [update_idem User.ID s.db.tables.users id (fun x => ⟨x.ID, name, email⟩) (fun _ => rfl)
    (fun _ => rfl)]

theorem DeleteUser_twice (s : Storage) (id : Int) (hf : s.db.fault = .noFault)
    (h : ∃ x ∈ s.db.tables.users, x.ID = id) :
    (s.DeleteUser id).2 = none ∧
    ((s.DeleteUser id).1.DeleteUser id).2 =
      some (.other "storage.postgre.DeleteUser: user not found") := by
  obtain ⟨x, hx, hxid⟩ := h
  have hm : s.db.tables.users.filter (fun x => x.ID == id) ≠ [] := by
    intro hnil
    have : x ∈ s.db.tables.users.filter (fun x => x.ID == id) :=
      List.mem_filter.mpr ⟨hx, by simpa using hxid⟩
    rw [hnil] at this
    exact List.not_mem_nil _ this
  rw [DeleteUser_noFault s id hf, if_neg hm]
  refine ⟨rfl, ?_⟩
  have e2 := DeleteUser_noFault
    ⟨s.db.sent (.deleteUser id) ((Stmt.deleteUser id).run s.db.tables).tables⟩ id hf
  have hnil := filter_not_then_eq (fun x : User => x.ID == id) s.db.tables.users
  show (Storage.DeleteUser
    ⟨s.db.sent (.deleteUser id) ((Stmt.deleteUser id).run s.db.tables).tables⟩ id).2 = _
  rw [e2]
  exact if_pos hnil

theorem missingUser_not_found (s : Storage) (id : Int) (hf : s.db.fault = .noFault)
    (h : ∀ x ∈ s.db.tables.users, x.ID ≠ id) :
    (s.GetUserByID id).2 = .error (.other "storage.postgre.GetUserByID: user not found") ∧
    (s.GetUserByID id).1.db.tables = s.db.tables ∧
    (∀ name email,
      (s.UpdateUser id name email).2 =
        some (.other "storage.postgre.UpdateUser: user not found") ∧
      (s.UpdateUser id name email).1.db.tables = s.db.tables) ∧
    (s.DeleteUser id).2 = some (.other "storage.postgre.DeleteUser: user not found") ∧
    (s.DeleteUser id).1.db.tables = s.db.tables := by
  have hn := filter_id_nil User.ID _ id h
  refine ⟨?_, ?_, fun name email => ⟨?_, ?_⟩, ?_, ?_⟩
  · rw [GetUserByID_noFault s id hf, hn]
  · rw [GetUserByID_noFault s id hf]; rfl
  · rw [UpdateUser_noFault s id name email hf, if_pos hn]
  · rw [UpdateUser_noFault s id name email hf]
    exact (run_update_no_match s.db.tables id).1 h name email
  · rw [DeleteUser_noFault s id hf, if_pos hn]
  · rw [DeleteUser_noFault s id hf]
    exact (run_delete_no_match s.db.tables id).1 h

theorem UpdateEvent_runs (s : Storage) (id : Int) (title description : String)
    (h1 : ∀ err, s.db.fault ≠ .stmt err) (h2 : ∀ err, s.db.fault ≠ .rowsAffected err) :
    s.UpdateEvent id title description =
      (⟨s.db.sent (.updateEvent title description id)
          ((Stmt.updateEvent title description id).run s.db.tables).tables⟩,
        if s.db.tables.events.filter (fun x => x.ID == id) = [] then
          some (.other "storage.postgre.UpdateEvent: event not found")
        else none) := by
  obtain ⟨⟨t, f, tr⟩⟩ := s
  cases f
  case stmt err => exact absurd rfl (h1 err)
  case rowsAffected err => exact absurd rfl (h2 err)
  all_goals
    simp only [Storage.UpdateEvent, DB.Exec, Stmt.run, Errorf_s]
    split <;> rename_i h
    · have h0 : List.filter (fun x => x.ID == id) t.events = [] := by simpa using h
      rw [if_pos h0]; rfl
    · have h0 : ¬ List.filter (fun x => x.ID == id) t.events = [] := by simpa using h
      rw [if_neg h0]

theorem UpdateEvent_ok_runs (s : Storage) (id : Int) (title description : String)
    (h : (s.UpdateEvent id title description).2 = none) :
    (∀ err, s.db.fault ≠ .stmt err) ∧ (∀ err, s.db.fault ≠ .rowsAffected err) := by
  obtain ⟨⟨t, f, tr⟩⟩ := s
  cases f
  case stmt err => exact absurd h (by simp [Storage.UpdateEvent, DB.Exec])
  case rowsAffected err => exact absurd h (by simp [Storage.UpdateEvent, DB.Exec])
  all_goals exact ⟨fun err => by simp, fun err => by simp⟩

theorem UpdateEvent_twice (s : Storage) (id : Int) (title description : String)
    (h : (s.UpdateEvent id title description).2 = none) :
    ((s.UpdateEvent id title description).1.UpdateEvent id title description).2 = none ∧
    ((s.UpdateEvent id title description).1.UpdateEvent id title description).1.db.tables =
      (s.UpdateEvent id title description).1.db.tables := by
  obtain ⟨h1, h2⟩ := UpdateEvent_ok_runs s id title description h
  have e1 := UpdateEvent_runs s id title description h1 h2
  rw [e1] at h ⊢
  have hm : s.db.tables.events.filter (fun x => x.ID == id) ≠ [] := by
    intro hnil
    rw [if_pos hnil] at h
    exact absurd h (by simp)
  have hm2 := update_keeps_match Event.ID s.db.tables.events id (fun x => ⟨x.ID, title, description⟩)
    (fun _ => rfl) hm
  have e2 := UpdateEvent_runs ⟨s.db.sent (.updateEvent title description id)
    ((Stmt.updateEvent title description id).run s.db.tables).tables⟩ id title description h1 h2
  rw [e2]
  refine ⟨if_neg hm2, ?_⟩
  simp only [DB.sent, Stmt.run]
  rw [update_idem Event.ID s.db.tables.events id (fun x => ⟨x.ID, title, description⟩) (fun _ => rfl)
    (fun _ => rfl)]

theorem DeleteEvent_twice (s : Storage) (id : Int) (hf : s.db.fault = .noFault)
    (h : ∃ x ∈ s.db.tables.events, x.ID = id) :
    (s.DeleteEvent id).2 = none ∧
    ((s.DeleteEvent id).1.DeleteEvent id).2 =
      some (.other "storage.postgre.DeleteEvent: event not found") := by
  obtain ⟨x, hx, hxid⟩ := h
  have hm : s.db.tables.events.filter (fun x => x.ID == id) ≠ [] := by
    intro hnil
    have : x ∈ s.db.tables.events.filter (fun x => x.ID == id) :=
      List.mem_filter.mpr ⟨hx, by simpa using hxid⟩
    rw [hnil] at this
    exact List.not_mem_nil _ this
  rw [DeleteEvent_noFault s id hf, if_neg hm]
  refine ⟨rfl, ?_⟩
  have e2 := DeleteEvent_noFault
    ⟨s.db.sent (.deleteEvent id) ((Stmt.deleteEvent id).run s.db.tables).tables⟩ id hf
  have hnil := filter_not_then_eq (fun x : Event => x.ID == id) s.db.tables.events
  show (Storage.DeleteEvent
    ⟨s.db.sent (.deleteEvent id) ((Stmt.deleteEvent id).run s.db.tables).tables⟩ id).2 = _
  rw [e2]
  exact if_pos hnil

theorem missingEvent_not_found (s : Storage) (id : Int) (hf : s.db.fault = .noFault)
    (h : ∀ x ∈ s.db.tables.events, x.ID ≠ id) :
    (s.GetEventByID id).2 = .error (.other "storage.postgre.GetEventByID: event not found") ∧
    (s.GetEventByID id).1.db.tables = s.db.tables ∧
    (∀ title description,
      (s.UpdateEvent id title description).2 =
        some (.other "storage.postgre.UpdateEvent: event not found") ∧
      (s.UpdateEvent id title description).1.db.tables = s.db.tables) ∧
    (s.DeleteEvent id).2 = some (.other "storage.postgre.DeleteEvent: event not found") ∧
    (s.DeleteEvent id).1.db.tables = s.db.tables := by
  have hn := filter_id_nil Event.ID _ id h
  refine ⟨?_, ?_, fun title description => ⟨?_, ?_⟩, ?_, ?_⟩
  · rw [GetEventByID_noFault s id hf, hn]
  · rw [GetEventByID_noFault s id hf]; rfl
  · rw [UpdateEvent_noFault s id title description hf, if_pos hn]
  · rw [UpdateEvent_noFault s id title description hf]
    exact (run_update_no_match s.db.tables id).2.1 h title description
  · rw [DeleteEvent_noFault s id hf, if_pos hn]
  · rw [DeleteEvent_noFault s id hf]
    exact (run_delete_no_match s.db.tables id).2.1 h

theorem UpdateBooking_runs (s : Storage) (id : Int) (eventID userID : Int)
    (h1 : ∀ err, s.db.fault ≠ .stmt err) (h2 : ∀ err, s.db.fault ≠ .rowsAffected err) :
    s.UpdateBooking id eventID userID =
      (⟨s.db.sent (.updateBooking eventID userID id)
          ((Stmt.updateBooking eventID userID id).run s.db.tables).tables⟩,
        if s.db.tables.bookings.filter (fun x => x.ID == id) = [] then
          some (.other "storage.postgre.UpdateBooking: booking not found")
        else none) := by
  obtain ⟨⟨t, f, tr⟩⟩ := s
  cases f
  case stmt err => exact absurd rfl (h1 err)
  case rowsAffected err => exact absurd rfl (h2 err)
  all_goals
    simp only [Storage.UpdateBooking, DB.Exec, Stmt.run, Errorf_s]
    split <;> rename_i h
    · have h0 : List.filter (fun x => x.ID == id) t.bookings = [] := by simpa using h
      rw [if_pos h0]; rfl
    · have h0 : ¬ List.filter (fun x => x.ID == id) t.bookings = [] := by simpa using h
      rw [if_neg h0]

theorem UpdateBooking_ok_runs (s : Storage) (id : Int) (eventID userID : Int)
    (h : (s.UpdateBooking id eventID userID).2 = none) :
    (∀ err, s.db.fault ≠ .stmt err) ∧ (∀ err, s.db.fault ≠ .rowsAffected err) := by
  obtain ⟨⟨t, f, tr⟩⟩ := s
  cases f
  case stmt err => exact absurd h (by simp [Storage.UpdateBooking, DB.Exec])
  case rowsAffected err => exact absurd h (by simp [Storage.UpdateBooking, DB.Exec])
  all_goals exact ⟨fun err => by simp, fun err => by simp⟩

theorem UpdateBooking_twice (s : Storage) (id : Int) (eventID userID : Int)
    (h : (s.UpdateBooking id eventID userID).2 = none) :
    ((s.UpdateBooking id eventID userID).1.UpdateBooking id eventID userID).2 = none ∧
    ((s.UpdateBooking id eventID userID).1.UpdateBooking id eventID userID).1.db.tables =
      (s.UpdateBooking id eventID userID).1.db.tables := by
  obtain ⟨h1, h2⟩ := UpdateBooking_ok_runs s id eventID userID h
  have e1 := UpdateBooking_runs s id eventID userID h1 h2
  rw [e1] at h ⊢
  have hm : s.db.tables.bookings.filter (fun x => x.ID == id) ≠ [] := by
    intro hnil
    rw [if_pos hnil] at h
    exact absurd h (by simp)
  have hm2 := update_keeps_match Booking.ID s.db.tables.bookings id (fun x => ⟨x.ID, eventID, userID⟩)
    (fun _ => rfl) hm
  have e2 := UpdateBooking_runs ⟨s.db.sent (.updateBooking eventID userID id)
    ((Stmt.updateBooking eventID userID id).run s.db.tables).tables⟩ id eventID userID h1 h2
  rw [e2]
  refine ⟨if_neg hm2, ?_⟩
  simp only [DB.sent, Stmt.run]
  rw [update_idem Booking.ID s.db.tables.bookings id (fun x => ⟨x.ID, eventID, userID⟩) (fun _ => rfl)
    (fun _ => rfl)]

theorem DeleteBooking_twice (s : Storage) (id : Int) (hf : s.db.fault = .noFault)
    (h : ∃ x ∈ s.db.tables.bookings, x.ID = id) :
    (s.DeleteBooking id).2 = none ∧
    ((s.DeleteBooking id).1.DeleteBooking id).2 =
      some (.other "storage.postgre.DeleteBooking: booking not found") := by
  obtain ⟨x, hx, hxid⟩ := h
  have hm : s.db.tables.bookings.filter (fun x => x.ID == id) ≠ [] := by
    intro hnil
    have : x ∈ s.db.tables.bookings.filter (fun x => x.ID == id) :=
      List.mem_filter.mpr ⟨hx, by simpa using hxid⟩
    rw [hnil] at this
    exact List.not_mem_nil _ this
  rw [DeleteBooking_noFault s id hf, if_neg hm]
  refine ⟨rfl, ?_⟩
  have e2 := DeleteBooking_noFault
    ⟨s.db.sent (.deleteBooking id) ((Stmt.deleteBooking id).run s.db.tables).tables⟩ id hf
  have hnil := filter_not_then_eq (fun x : Booking => x.ID == id) s.db.tables.bookings
  show (Storage.DeleteBooking
    ⟨s.db.sent (.deleteBooking id) ((Stmt.deleteBooking id).run s.db.tables).tables⟩ id).2 = _
  rw [e2]
  exact if_pos hnil

theorem missingBooking_not_found (s : Storage) (id : Int) (hf : s.db.fault = .noFault)
    (h : ∀ x ∈ s.db.tables.bookings, x.ID ≠ id) :
    (s.GetBookingByID id).2 = .error (.other "storage.postgre.GetBookingByID: booking not found") ∧
    (s.GetBookingByID id).1.db.tables = s.db.tables ∧
    (∀ eventID userID,
      (s.UpdateBooking id eventID userID).2 =
        some (.other "storage.postgre.UpdateBooking: booking not found") ∧
      (s.UpdateBooking id eventID userID).1.db.tables = s.db.tables) ∧
    (s.DeleteBooking id).2 = some (.other "storage.postgre.DeleteBooking: booking not found") ∧
    (s.DeleteBooking id).1.db.tables = s.db.tables := by
  have hn := filter_id_nil Booking.ID _ id h
  refine ⟨?_, ?_, fun eventID userID => ⟨?_, ?_⟩, ?_, ?_⟩
  · rw [GetBookingByID_noFault s id hf, hn]
  · rw [GetBookingByID_noFault s id hf]; rfl
  · rw [UpdateBooking_noFault s id eventID userID hf, if_pos hn]
  · rw [UpdateBooking_noFault s id eventID userID hf]
    exact (run_update_no_match s.db.tables id).2.2 h eventID userID
  · rw [DeleteBooking_noFault s id hf, if_pos hn]
  · rw [DeleteBooking_noFault s id hf]
    exact (run_delete_no_match s.db.tables id).2.2 h

/-! ### Identities that match no row -/

/-- C11: when the statement runs without fault and no row of the entity has
identity `id`, the gateway's getByID, update (for every field set) and delete
each return the not-found error of the operation, not a wrapped storage
failure, and the tables after the call are the tables before it. -/
theorem C11_missing_identity_is_not_found_and_store_unchanged (s : Storage) (id : Int)
    (hf : s.db.fault = .noFault) :
    ((∀ x ∈ s.db.tables.users, x.ID ≠ id) →
      (s.GetUserByID id).2 = .error (.other "storage.postgre.GetUserByID: user not found") ∧
      (s.GetUserByID id).1.db.tables = s.db.tables ∧
      (∀ name email,
        (s.UpdateUser id name email).2 =
          some (.other "storage.postgre.UpdateUser: user not found") ∧
        (s.UpdateUser id name email).1.db.tables = s.db.tables) ∧
      (s.DeleteUser id).2 = some (.other "storage.postgre.DeleteUser: user not found") ∧
      (s.DeleteUser id).1.db.tables = s.db.tables) ∧
    ((∀ x ∈ s.db.tables.events, x.ID ≠ id) →
      (s.GetEventByID id).2 = .error (.other "storage.postgre.GetEventByID: event not found") ∧
      (s.GetEventByID id).1.db.tables = s.db.tables ∧
      (∀ title description,
        (s.UpdateEvent id title description).2 =
          some (.other "storage.postgre.UpdateEvent: event not found") ∧
        (s.UpdateEvent id title description).1.db.tables = s.db.tables) ∧
      (s.DeleteEvent id).2 = some (.other "storage.postgre.DeleteEvent: event not found") ∧
      (s.DeleteEvent id).1.db.tables = s.db.tables) ∧
    ((∀ x ∈ s.db.tables.bookings, x.ID ≠ id) →
      (s.GetBookingByID id).2 = .error (.other "storage.postgre.GetBookingByID: booking not found") ∧
      (s.GetBookingByID id).1.db.tables = s.db.tables ∧
      (∀ eventID userID,
        (s.UpdateBooking id eventID userID).2 =
          some (.other "storage.postgre.UpdateBooking: booking not found") ∧
        (s.UpdateBooking id eventID userID).1.db.tables = s.db.tables) ∧
      (s.DeleteBooking id).2 = some (.other "storage.postgre.DeleteBooking: booking not found") ∧
      (s.DeleteBooking id).1.db.tables = s.db.tables) :=
  ⟨missingUser_not_found s id hf, missingEvent_not_found s id hf,
    missingBooking_not_found s id hf⟩

/-- C11 (witness): identity 5 on the sample store, which holds only identity 1. -/
theorem C11_missing_identity_is_not_found_and_store_unchanged_witness :
    (Storage.healthy sampleTables).db.fault = .noFault ∧
    (∀ x ∈ (Storage.healthy sampleTables).db.tables.users, x.ID ≠ 5) ∧
    ((Storage.healthy sampleTables).GetUserByID 5).2 =
      .error (.other "storage.postgre.GetUserByID: user not found") ∧
    ((Storage.healthy sampleTables).GetUserByID 5).1.db.tables = sampleTables :=
  ⟨rfl, by decide,
    ((C11_missing_identity_is_not_found_and_store_unchanged (Storage.healthy sampleTables) 5
      rfl).1 (by decide)).1,
    ((C11_missing_identity_is_not_found_and_store_unchanged (Storage.healthy sampleTables) 5
      rfl).1 (by decide)).2.1⟩

/-! ### Delete twice -/

/-- C12: when the statements run without fault and a row of the entity has
identity `id`, the gateway's delete on `id` succeeds, and a second delete on
`id` right after it returns the not-found error. -/
theorem C12_delete_twice_is_success_then_not_found (s : Storage) (id : Int)
    (hf : s.db.fault = .noFault) :
    ((∃ x ∈ s.db.tables.users, x.ID = id) →
      (s.DeleteUser id).2 = none ∧
      ((s.DeleteUser id).1.DeleteUser id).2 =
        some (.other "storage.postgre.DeleteUser: user not found")) ∧
    ((∃ x ∈ s.db.tables.events, x.ID = id) →
      (s.DeleteEvent id).2 = none ∧
      ((s.DeleteEvent id).1.DeleteEvent id).2 =
        some (.other "storage.postgre.DeleteEvent: event not found")) ∧
    ((∃ x ∈ s.db.tables.bookings, x.ID = id) →
      (s.DeleteBooking id).2 = none ∧
      ((s.DeleteBooking id).1.DeleteBooking id).2 =
        some (.other "storage.postgre.DeleteBooking: booking not found")) :=
  ⟨DeleteUser_twice s id hf, DeleteEvent_twice s id hf, DeleteBooking_twice s id hf⟩

/-- C12 (witness): the booking of identity 1 in the sample store. -/
theorem C12_delete_twice_is_success_then_not_found_witness :
    (Storage.healthy sampleTables).db.fault = .noFault ∧
    (∃ x ∈ (Storage.healthy sampleTables).db.tables.bookings, x.ID = 1) ∧
    ((Storage.healthy sampleTables).DeleteBooking 1).2 = none ∧
    (((Storage.healthy sampleTables).DeleteBooking 1).1.DeleteBooking 1).2 =
      some (.other "storage.postgre.DeleteBooking: booking not found") :=
  ⟨rfl, ⟨⟨1, 1, 1⟩, by decide, rfl⟩,
    (C12_delete_twice_is_success_then_not_found (Storage.healthy sampleTables) 1 rfl).2.2
      ⟨⟨1, 1, 1⟩, by decide, rfl⟩⟩

/-! ### Update twice -/

/-- C13: whenever the gateway's update on an identity with a field set
succeeds, the same update applied right after it succeeds as well, and the
tables after the second update are the tables after the first. -/
theorem C13_update_twice_is_idempotent (s : Storage) (id : Int) :
    (∀ name email, (s.UpdateUser id name email).2 = none →
      ((s.UpdateUser id name email).1.UpdateUser id name email).2 = none ∧
      ((s.UpdateUser id name email).1.UpdateUser id name email).1.db.tables =
        (s.UpdateUser id name email).1.db.tables) ∧
    (∀ title description, (s.UpdateEvent id title description).2 = none →
      ((s.UpdateEvent id title description).1.UpdateEvent id title description).2 = none ∧
      ((s.UpdateEvent id title description).1.UpdateEvent id title description).1.db.tables =
        (s.UpdateEvent id title description).1.db.tables) ∧
    (∀ eventID userID, (s.UpdateBooking id eventID userID).2 = none →
      ((s.UpdateBooking id eventID userID).1.UpdateBooking id eventID userID).2 = none ∧
      ((s.UpdateBooking id eventID userID).1.UpdateBooking id eventID userID).1.db.tables =
        (s.UpdateBooking id eventID userID).1.db.tables) :=
  ⟨UpdateUser_twice s id, UpdateEvent_twice s id, UpdateBooking_twice s id⟩

/-- C13 (witness): the user of identity 1 in the sample store, updated twice to
name Bob and e-mail bob@x.com; the stored row is then that user. -/
theorem C13_update_twice_is_idempotent_witness :
    ((Storage.healthy sampleTables).UpdateUser 1 "Bob" "bob@x.com").2 = none ∧
    (((Storage.healthy sampleTables).UpdateUser 1 "Bob" "bob@x.com").1.UpdateUser 1
      "Bob" "bob@x.com").2 = none ∧
    (((Storage.healthy sampleTables).UpdateUser 1 "Bob" "bob@x.com").1.UpdateUser 1
      "Bob" "bob@x.com").1.db.tables.users = [⟨1, "Bob", "bob@x.com"⟩] :=
  ⟨by decide,
    ((C13_update_twice_is_idempotent (Storage.healthy sampleTables) 1).1 "Bob" "bob@x.com"
      (by decide)).1,
    (congrArg Tables.users ((C13_update_twice_is_idempotent (Storage.healthy sampleTables)
      1).1 "Bob" "bob@x.com" (by decide)).2).trans (by decide)⟩

/-! ### Close on a gateway without a handle -/

theorem Close_initialised (p : Pool) :
    Storage.Close (some ⟨some p⟩) =
      (some ⟨some ⟨p.db, true, p.closeCalls + 1, p.closeErr⟩⟩,
        if p.closed then none else p.closeErr) := by
  simp only [Storage.Close, Pool.Close]
  split <;> rfl

/-- C14: when the gateway is the nil pointer or its connection handle is nil,
`Close` returns the nil error and leaves the gateway as it is (there is no
handle to close and none is touched); hence any number of calls in a row all
return nil and leave the gateway unchanged, and so does the cleanup function. -/
theorem C14_close_without_handle_is_a_no_op (s : StoragePtr)
    (h : s = none ∨ s = some ⟨none⟩) :
    Storage.Close s = (s, none) ∧
    (∀ n, closeTimes n s = (s, List.replicate n none)) ∧
    cleanup s = (s, none) := by
  have hc : Storage.Close s = (s, none) := by
    rcases h with h | h <;> subst h <;> rfl
  refine ⟨hc, fun n => ?_, ?_⟩
  · induction n with
    | zero => rfl
    | succ k ih =>
      simp only [closeTimes, hc, ih, List.replicate_succ]
  · simp only [cleanup, hc]

/-- C14 (witness): the nil gateway, closed three times, and the gateway whose
handle is nil. -/
theorem C14_close_without_handle_is_a_no_op_witness :
    closeTimes 3 none = (none, [none, none, none]) ∧
    Storage.Close (some ⟨none⟩) = (some ⟨none⟩, none) :=
  ⟨(C14_close_without_handle_is_a_no_op none (Or.inl rfl)).2.1 3,
    (C14_close_without_handle_is_a_no_op (some ⟨none⟩) (Or.inr rfl)).1⟩

/-! ### Names submitted to the gateway -/

/-- C15 (counterexample): a request whose decoded body has the empty name makes
the Create handler send the insert with the empty name, answer 201 and store a
user of empty name; it makes the Update handler send the update with the empty
name, answer 200 and overwrite the stored name with the empty string. -/
theorem C15_empty_name_reaches_the_gateway :
    (serve .postUsers (Storage.healthy Tables.empty) (namelessRequest "")).1.db.trace =
      [.insertUser "" "ann@x.com"] ∧
    (serve .postUsers (Storage.healthy Tables.empty) (namelessRequest "")).2.status = 201 ∧
    (serve .postUsers (Storage.healthy Tables.empty) (namelessRequest "")).1.db.tables.users =
      [⟨1, "", "ann@x.com"⟩] ∧
    (serve .putUser (Storage.healthy sampleTables) (namelessRequest "1")).1.db.trace =
      [.updateUser "" "ann@x.com" 1] ∧
    (serve .putUser (Storage.healthy sampleTables) (namelessRequest "1")).2.status = 200 ∧
    (serve .putUser (Storage.healthy sampleTables) (namelessRequest "1")).1.db.tables.users =
      [⟨1, "", "ann@x.com"⟩] := by
  decide

/-- C15 (amended): for every request whose body decodes, the Create and Update
user handlers submit to the gateway exactly the name and e-mail of the decoded
body, whether the name is empty or not: the one statement sent carries them,
and on a healthy connection Create stores a user with that name. -/
theorem C15_handlers_submit_the_decoded_name (s : Storage) (r : Request) (u : User)
    (hu : r.user = some u) :
    (serve .postUsers s r).1.db.trace = s.db.trace ++ [.insertUser u.Name u.Email] ∧
    (∀ p, ParseInt r.id = some p →
      (serve .putUser s r).1.db.trace = s.db.trace ++ [.updateUser u.Name u.Email p]) ∧
    (s.db.fault = .noFault →
      (⟨s.db.tables.usersSeq + 1, u.Name, u.Email⟩ : User) ∈
        (serve .postUsers s r).1.db.tables.users) := by
  refine ⟨?_, fun p hp => ?_, fun hf => ?_⟩
  · rw [serve_postUsers s r u hu]; exact AddUser_trace s _ _
  · rw [serve_putUser s r p u hp hu]; exact UpdateUser_trace s _ _ _
  · rw [postUsers_noFault s r u hf hu]
    exact List.mem_append.mpr (Or.inr (List.mem_singleton.mpr rfl))

/-- C15 (witness): the amended statement at the request with the empty name on
the empty store. -/
theorem C15_handlers_submit_the_decoded_name_witness :
    (namelessRequest "").user = some ⟨0, "", "ann@x.com"⟩ ∧
    (serve .postUsers (Storage.healthy Tables.empty) (namelessRequest "")).1.db.trace =
      (Storage.healthy Tables.empty).db.trace ++ [.insertUser "" "ann@x.com"] :=
  ⟨rfl, (C15_handlers_submit_the_decoded_name (Storage.healthy Tables.empty)
    (namelessRequest "") ⟨0, "", "ann@x.com"⟩ rfl).1⟩

end GoEvents
